import Mathlib

/-!
Shallow embedding, in Lean, of the attribute-resolution and package-import
core of the `si` repository (Rust sources under `src/lib/dal/src`), together
with theorems checking the natural-language specification against it.

Conventions of the embedding:
- database rows become Lean structures collected in plain lists inside a
  `Store` value; every stateful Rust function becomes a pure function from a
  `Store` (and the auxiliary caches it threads) to a new `Store`;
- fallible Rust functions returning `Result` become functions into `Except`;
- identifiers (`pk!` types) become natural numbers, with `0` reserved for the
  sentinel `NONE` value;
- `serde_json::Value` becomes the `Json` inductive below;
- helper functions of the repository that live outside the provided sources
  are translated from the specification document and are marked with a doc
  comment starting with "Modelled from the spec:".
-/

namespace Si

/-- Opaque entity identifier (the `pk!` macro types of the DAL). -/
abbrev EntityId := Nat

/-- Change set primary key; `0` models `ChangeSetPk::NONE` (head). -/
abbrev ChangeSetPk := Nat

/-- The sentinel head change set (`ChangeSetPk::NONE`). -/
def ChangeSetPk.NONE : ChangeSetPk := 0

/-- Kinds of props in the typed prop tree (`PropKind` in the DAL). -/
inductive PropKind where
  | string
  | boolean
  | integer
  | array
  | map
  | object
deriving DecidableEq

/-- Model of `serde_json::Value`. -/
inductive Json where
  | null
  | bool (b : Bool)
  | num (n : Int)
  | str (s : String)
  | arr (elems : List Json)
  | obj (fields : List (String × Json))

/-- Structural equality test on `Json` values. -/
def Json.beq : Json → Json → Bool
  | .null, .null => true
  | .bool a, .bool b => a == b
  | .num a, .num b => a == b
  | .str a, .str b => a == b
  | .arr [], .arr [] => true
  | .arr (a :: as), .arr (b :: bs) => Json.beq a b && Json.beq (.arr as) (.arr bs)
  | .obj [], .obj [] => true
  | .obj ((k, v) :: as), .obj ((l, w) :: bs) =>
    k == l && Json.beq v w && Json.beq (.obj as) (.obj bs)
  | _, _ => false

instance : BEq Json := ⟨Json.beq⟩

/-- A prop path, as the ordered list of path segments from the root
(`PropPath` in the DAL, which joins segments with a separator). -/
abbrev PropPath := List String

/-- Modelled from the spec: `PropPath::is_descendant_of` from the DAL prop
module (not among the provided sources). A path is a descendant of another
when the latter is a proper prefix of the former, segment by segment; it is
used by the importer to detect props strictly under `root/resource`. -/
def PropPath.isDescendantOf (p q : PropPath) : Bool :=
  q.isPrefixOf p && decide (q.length < p.length)

/-- Kinds of action prototypes (`ActionKind` in `action_prototype.rs`). -/
inductive ActionKind where
  | create
  | delete
  | other
  | refresh
deriving DecidableEq

/-! ## Action prototypes (`src/lib/dal/src/action_prototype.rs`) -/

/-- A persisted `ActionPrototype` row: it joins a `FuncId` to a
`SchemaVariantId` with an `ActionKind`.  The `visible` flag models whether
the row is visible under the ambient `Tenancy` and `Visibility` of the
context (rows returned by the `FIND_FOR_CONTEXT` query are the visible
ones). -/
structure ActionPrototype where
  id : EntityId
  funcId : EntityId
  kind : ActionKind
  schemaVariantId : EntityId
  visible : Bool
deriving DecidableEq

/-- Errors of the action-prototype module that the embedding can surface. -/
inductive ActionPrototypeError where
  | multipleOfSameKind
  | componentNotFound (componentId : EntityId)
  | serdeJson (message : String)
deriving DecidableEq

/-- `ActionPrototype::find_for_context`: all visible prototypes whose
context (schema variant) matches. -/
def ActionPrototype.find_for_context (db : List ActionPrototype)
    (schemaVariantId : EntityId) : List ActionPrototype :=
  db.filter (fun row => row.visible && row.schemaVariantId == schemaVariantId)

/-- `ActionPrototype::new`: refuses to create a second prototype of the same
kind for the same schema variant unless the kind is `Other`, then inserts the
new row. -/
def ActionPrototype.new (db : List ActionPrototype) (newId funcId : EntityId)
    (kind : ActionKind) (schemaVariantId : EntityId) :
    Except ActionPrototypeError (List ActionPrototype × ActionPrototype) :=
  if (ActionPrototype.find_for_context db schemaVariantId).any
      (fun p => p.kind == kind && !(kind == ActionKind.other)) then
    .error .multipleOfSameKind
  else
    let row : ActionPrototype :=
      { id := newId, funcId := funcId, kind := kind,
        schemaVariantId := schemaVariantId, visible := true }
    .ok (db ++ [row], row)

/-! ## Action execution (`ActionPrototype::run`) -/

/-- The structured result of running an action function
(`ActionRunResult` in `func/backend/js_action.rs`); only the fields the
run path inspects are modelled. -/
structure ActionRunResult where
  payload : Option Json
  logs : List String

instance : BEq ActionRunResult :=
  ⟨fun a b => a.payload == b.payload && a.logs == b.logs⟩

/-- One line of the output stream collected from the function execution. -/
structure OutputStreamPart where
  timestamp : Nat
  message : String
deriving DecidableEq

/-- A `Component` row, restricted to the fields the modelled operations
read or write. -/
structure Component where
  id : EntityId
  name : String
  schemaVariantId : EntityId
  needsDestroy : Bool
  resource : Option ActionRunResult
  hidden : Bool
  deleted : Bool

/-- Events published to the external pub/sub collaborator. -/
inductive WsEvent where
  | resourceRefreshed (componentId : EntityId)
deriving DecidableEq

/-- Insert one log line into an already sorted list, by timestamp. -/
def insertByTimestamp (x : OutputStreamPart) :
    List OutputStreamPart → List OutputStreamPart
  | [] => [x]
  | y :: ys =>
    if x.timestamp < y.timestamp then x :: y :: ys
    else y :: insertByTimestamp x ys

/-- `logs.sort_by_key(|log| log.timestamp)` of the run path. -/
def sortLogs (logs : List OutputStreamPart) : List OutputStreamPart :=
  logs.foldr insertByTimestamp []

/-- Replace every component row carrying the same id. -/
def updateComponent (components : List Component) (c : Component) :
    List Component :=
  components.map (fun g => if g.id == c.id then c else g)

/-- Modelled from the spec: `Component::set_resource` (component module, not
among the provided sources) writes the structured run result back onto the
component resource attribute and reports whether a resource write happened,
which gates the `resource_refreshed` event. -/
def Component.set_resource (c : Component) (result : ActionRunResult) :
    Component × Bool :=
  ({ c with resource := some result }, !(c.resource == some result))

/-- `ActionPrototype::run` (lines 371 to 431 of `action_prototype.rs`).
The external function runtime (`FuncBinding::create_and_execute`, spec
section 6) is a collaborator: its outcome is passed in as `returnValue`
(the optional value of the binding return value) and `outputStream` (the
collected log stream).  `decode` stands for
`serde_json::from_value::<ActionRunResult>`. -/
def ActionPrototype.run (decode : Json → Except String ActionRunResult)
    (components : List Component) (componentId : EntityId)
    (returnValue : Option Json) (outputStream : List OutputStreamPart) :
    Except ActionPrototypeError
      (Option ActionRunResult × List Component × List WsEvent) :=
  let logs := sortLogs outputStream
  match returnValue with
  | some value =>
    match decode value with
    | .error e => .error (.serdeJson e)
    | .ok decoded =>
      let runResult : ActionRunResult :=
        { decoded with logs := logs.map (fun l => l.message) }
      match components.find? (fun c => c.id == componentId) with
      | none => .error (.componentNotFound componentId)
      | some component =>
        let step1 :=
          if component.needsDestroy && runResult.payload.isNone then
            { component with needsDestroy := false }
          else component
        let components := updateComponent components step1
        let (step2, changed) := Component.set_resource step1 runResult
        let components := updateComponent components step2
        let events :=
          if changed then [WsEvent.resourceRefreshed componentId] else []
        .ok (some runResult, components, events)
  | none => .ok (none, components, [])

/-! ## Rows of the package-import data model
(`src/lib/dal/src/pkg/import.rs` and the entities it drives) -/

/-- A `Func` row, with the fields the importer reads and writes. -/
structure FuncRow where
  id : EntityId
  name : String
  displayName : Option String
  description : Option String
  handler : Option String
  link : Option String
  hidden : Bool
  builtin : Bool
  backendKind : String
  responseType : String
  codeBase64 : Option String
deriving DecidableEq

/-- The data payload of a function spec (`FuncSpecData` of `si-pkg`). -/
structure FuncSpecData where
  name : String
  displayName : Option String
  description : Option String
  handler : String
  link : Option String
  hidden : Bool
  backendKind : String
  responseType : String
  codeBase64 : String
deriving DecidableEq

/-- One function-argument spec of a package (`FuncArgumentSpec`). -/
structure FuncArgumentSpec where
  name : String
  kind : String
  elementKind : Option String
  uniqueId : Option String
  deleted : Bool
deriving DecidableEq

/-- A `FuncArgument` row. -/
structure FuncArgumentRow where
  id : EntityId
  name : String
  kind : String
  elementKind : Option String
  funcId : EntityId
deriving DecidableEq

/-- A function spec of a package.  This combines the `SiPkgFunc` view (its
content `hash` and the `is_from_builtin` flag) with the converted `FuncSpec`
fields the importer uses. -/
structure FuncSpec where
  name : String
  uniqueId : String
  data : Option FuncSpecData
  deleted : Bool
  isFromBuiltin : Bool
  arguments : List FuncArgumentSpec
  hash : String
deriving DecidableEq

/-- A `Schema` row. -/
structure SchemaRow where
  id : EntityId
  name : String
  uiHidden : Bool
  builtin : Bool
  defaultSchemaVariantId : Option EntityId
deriving DecidableEq

/-- A `SchemaVariant` row. -/
structure SchemaVariantRow where
  id : EntityId
  schemaId : EntityId
  name : String
  color : Option String
  pkgCreatedAt : Option Nat
deriving DecidableEq

/-- A `Prop` row: a node of the typed prop tree of a schema variant. -/
structure PropRow where
  id : EntityId
  name : String
  kind : PropKind
  path : PropPath
  schemaVariantId : EntityId
  parentId : Option EntityId
  hidden : Bool
deriving DecidableEq

/-- An `InternalProvider` row; implicit providers carry the prop they wrap
in `propId`, explicit (socket) providers carry `none` there. -/
structure InternalProviderRow where
  id : EntityId
  propId : Option EntityId
  schemaVariantId : EntityId
  name : String
deriving DecidableEq

/-- An `ExternalProvider` row. -/
structure ExternalProviderRow where
  id : EntityId
  schemaVariantId : EntityId
  name : String
deriving DecidableEq

/-- The two socket edge kinds used by edge resolution
(`SocketEdgeKind::ConfigurationInput` and `ConfigurationOutput`). -/
inductive SocketEdgeKind where
  | configurationInput
  | configurationOutput
deriving DecidableEq

/-- A `Socket` row, attached to the node that exposes it. -/
structure SocketRow where
  id : EntityId
  name : String
  edgeKind : SocketEdgeKind
  nodeId : EntityId
deriving DecidableEq

/-- A diagram `Node` row for a component. -/
structure NodeRow where
  id : EntityId
  x : Int
  y : Int
  width : Option Int
  height : Option Int
deriving DecidableEq

/-- Edge kinds (`EdgeKind` in the DAL, `EdgeSpecKind` in `si-pkg`). -/
inductive EdgeKind where
  | configuration
  | symbolic
deriving DecidableEq

/-- An `Edge` row; `deleted` models the visibility deletion flag. -/
structure EdgeRow where
  id : EntityId
  kind : EdgeKind
  headNodeId : EntityId
  headSocketId : EntityId
  tailNodeId : EntityId
  tailSocketId : EntityId
  creationUserPk : Option String
  deletionUserPk : Option String
  deletedImplicitly : Bool
  deleted : Bool
deriving DecidableEq

/-- An `AttributeValue` row; `componentId = 0` models the schema-level
(componentless) context. -/
structure AttributeValueRow where
  id : EntityId
  propId : EntityId
  componentId : EntityId
  key : Option String
  parentId : Option EntityId
  value : Option Json
  prototypeId : EntityId

/-- An `AttributePrototype` row: binds a destination to a function. -/
structure AttributePrototypeRow where
  id : EntityId
  funcId : EntityId
deriving DecidableEq

/-- An `AttributePrototypeArgument` row. -/
structure AttributePrototypeArgumentRow where
  id : EntityId
  prototypeId : EntityId
  funcArgumentId : EntityId
  internalProviderId : EntityId
deriving DecidableEq

/-- An `AuthenticationPrototype` row. -/
structure AuthPrototypeRow where
  id : EntityId
  funcId : EntityId
  schemaVariantId : EntityId
deriving DecidableEq

/-- An `InstalledPkg` row: one record per imported package root hash. -/
structure InstalledPkgRow where
  id : EntityId
  name : String
  hash : String
deriving DecidableEq

/-- Asset kinds of the installed-package ledger
(`InstalledPkgAssetKind`). -/
inductive InstalledPkgAssetKind where
  | func
  | schema
  | schemaVariant
  | schemaVariantDefinition
deriving DecidableEq

/-- An `InstalledPkgAsset` ledger row: `(kind, content hash)` mapped to the
live entity id it resolved to. -/
structure InstalledPkgAssetRow where
  kind : InstalledPkgAssetKind
  hash : String
  assetId : EntityId
  installedPkgId : EntityId
deriving DecidableEq

/-- The `Thing` sum type of the importer: the closed set of live entities
the `ThingMap` can hold. -/
inductive Thing where
  | actionPrototype (p : ActionPrototype)
  | authPrototype (p : AuthPrototypeRow)
  | attributePrototypeArgument (a : AttributePrototypeArgumentRow)
  | component (c : Component) (n : NodeRow)
  | edge (e : EdgeRow)
  | func (f : FuncRow)
  | funcArgument (a : FuncArgumentRow)
  | schema (s : SchemaRow)
  | schemaVariant (v : SchemaVariantRow)
  | socket (s : SocketRow) (ip : Option InternalProviderRow)
      (ep : Option ExternalProviderRow)

/-- Modelled from the spec: the `ThingMap` (`ChangeSetThingMap` of the pkg
module, not among the provided sources) is the import-scoped cache keyed by
`(change_set_id, unique_id)` mapping package-local identifiers to live
entities.  Inserts shadow earlier entries for the same key. -/
abbrev ThingMap := List ((ChangeSetPk × String) × Thing)

/-- Look up a thing for a change set and package-local unique id. -/
def ThingMap.get (m : ThingMap) (cs : ChangeSetPk) (uniqueId : String) :
    Option Thing :=
  (m.find? (fun e => e.1.1 == cs && e.1.2 == uniqueId)).map (fun e => e.2)

/-- Insert (or shadow) a thing for a change set and unique id. -/
def ThingMap.insert (m : ThingMap) (cs : ChangeSetPk) (uniqueId : String)
    (t : Thing) : ThingMap :=
  ((cs, uniqueId), t) :: m

/-- The row store: every table the modelled import operations touch, plus a
fresh-id counter.  Transactions are modelled by passing stores. -/
structure Store where
  nextId : Nat
  installedPkgs : List InstalledPkgRow
  installedPkgAssets : List InstalledPkgAssetRow
  funcs : List FuncRow
  funcArguments : List FuncArgumentRow
  schemas : List SchemaRow
  schemaVariants : List SchemaVariantRow
  props : List PropRow
  internalProviders : List InternalProviderRow
  externalProviders : List ExternalProviderRow
  sockets : List SocketRow
  components : List Component
  nodes : List NodeRow
  edges : List EdgeRow
  attributeValues : List AttributeValueRow
  attributePrototypes : List AttributePrototypeRow
  attributePrototypeArguments : List AttributePrototypeArgumentRow
  changeSets : List (EntityId × String)

/-- Allocate a fresh entity id. -/
def Store.freshId (s : Store) : EntityId × Store :=
  (s.nextId, { s with nextId := s.nextId + 1 })

/-- Replace the func row with the same id. -/
def Store.updateFunc (s : Store) (f : FuncRow) : Store :=
  { s with funcs := s.funcs.map (fun g => if g.id == f.id then f else g) }

/-- Hard-delete the func row with the given id. -/
def Store.deleteFunc (s : Store) (id : EntityId) : Store :=
  { s with funcs := s.funcs.filter (fun g => !(g.id == id)) }

/-- Append a ledger row (`InstalledPkgAsset::new`). -/
def Store.addAsset (s : Store) (a : InstalledPkgAssetRow) : Store :=
  { s with installedPkgAssets := s.installedPkgAssets ++ [a] }

/-- `InstalledPkgAsset::list_for_kind_and_hash(..).pop()`: the last ledger
row recorded for a kind and content hash, if any. -/
def InstalledPkgAsset.list_for_kind_and_hash_pop (s : Store)
    (kind : InstalledPkgAssetKind) (hash : String) :
    Option InstalledPkgAssetRow :=
  (s.installedPkgAssets.filter (fun a => a.kind == kind && a.hash == hash)).getLast?

/-- `InstalledPkg::find_by_hash`. -/
def InstalledPkg.find_by_hash (s : Store) (hash : String) :
    Option InstalledPkgRow :=
  s.installedPkgs.find? (fun p => p.hash == hash)

/-- `Func::find_by_name` (standard-model query by the name attribute). -/
def Func.find_by_name (s : Store) (name : String) : Option FuncRow :=
  s.funcs.find? (fun f => f.name == name)

/-- Errors of the package importer that the modelled paths can surface
(`PkgError`). -/
inductive PkgError where
  | packageAlreadyInstalled (hash : String)
  | installedFuncMissing (id : EntityId)
  | dataNotFound (what : String)
  | missingComponentForEdge (uniqueId fromSocket toSocket : String)
  | attributeValueWithKeyOrIndexButNoParent
  | attributeValueParentPropNotFound (path : PropPath)
  | missingFuncUniqueId (uniqueId : String)
  | missingFuncArgument (name : String) (funcId : EntityId)
  | missingFuncArgumentById (id : EntityId)
  | missingAttributePrototype
  | attributeValueNotFound (id : EntityId)
  | missingInternalProviderForProp (propId : EntityId)
  | workspacePkNotInBackup
  | workspaceNameNotInBackup
  | workspaceBackupNoDefaultChangeSet (name : String)
deriving DecidableEq

/-- Skips recorded while importing component attributes
(`ImportAttributeSkip`). -/
inductive ImportAttributeSkip where
  | kindMismatch (path : PropPath) (expectedKind variantKind : PropKind)
  | missingInputSocket (name : String)
  | missingOutputSocket (name : String)
  | missingProp (path : PropPath)
deriving DecidableEq

/-- Skips recorded while importing edges (`ImportEdgeSkip`). -/
inductive ImportEdgeSkip where
  | missingInputSocket (name : String)
  | missingOutputSocket (name : String)
deriving DecidableEq

/-- The per-change-set skip report returned by a workspace import
(`ImportSkips`). -/
structure ImportSkips where
  changeSetPk : ChangeSetPk
  edgeSkips : List ImportEdgeSkip
  attributeSkips : List (String × List ImportAttributeSkip)

/-! ## Function import (`import_func` and the funcs loop of
`import_change_set`, lines 103 to 204 and 1432 to 1672 of `import.rs`) -/

/-- Import options (`ImportOptions`).  `skipImportFuncs` models the
`HashMap<String, Func>` as an association list. -/
structure ImportOptions where
  schemas : Option (List String) := none
  skipImportFuncs : Option (List (String × FuncRow)) := none
  noRecord : Bool := false
  isBuiltin : Bool := false

/-- `create_func`: a fresh `Func` row built from the spec data; the spec
name (not the data name) becomes the func name, and the data must be
present. -/
def create_func (s : Store) (funcSpec : FuncSpec) :
    Except PkgError (Store × FuncRow) :=
  match funcSpec.data with
  | none => .error (.dataNotFound funcSpec.name)
  | some d =>
    let (id, s) := s.freshId
    let f : FuncRow :=
      { id := id, name := funcSpec.name, displayName := d.displayName,
        description := d.description, handler := some d.handler,
        link := d.link, hidden := d.hidden, builtin := false,
        backendKind := d.backendKind, responseType := d.responseType,
        codeBase64 := some d.codeBase64 }
    .ok ({ s with funcs := s.funcs ++ [f] }, f)

/-- The func row shape `create_func` builds from a spec and its data. -/
def createdFuncRow (s : Store) (funcSpec : FuncSpec) (d : FuncSpecData) :
    FuncRow :=
  { id := s.nextId, name := funcSpec.name, displayName := d.displayName,
    description := d.description, handler := some d.handler, link := d.link,
    hidden := d.hidden, builtin := false, backendKind := d.backendKind,
    responseType := d.responseType, codeBase64 := some d.codeBase64 }

/-- The store state after `create_func` appends the created row. -/
def createdFuncStore (s : Store) (funcSpec : FuncSpec) (d : FuncSpecData) :
    Store :=
  { s with
    nextId := s.nextId + 1,
    funcs := s.funcs ++ [createdFuncRow s funcSpec d] }

/-- The ledger row recorded for a func import. -/
def funcAssetRow (h : String) (assetId pkgId : EntityId) :
    InstalledPkgAssetRow :=
  { kind := .func, hash := h, assetId := assetId, installedPkgId := pkgId }

/-- `update_func`: overwrite the mutable fields of a func row from the spec
data. -/
def update_func (f : FuncRow) (d : FuncSpecData) : FuncRow :=
  { f with
    name := d.name,
    backendKind := d.backendKind,
    responseType := d.responseType,
    displayName := d.displayName,
    codeBase64 := some d.codeBase64,
    description := d.description,
    handler := some d.handler,
    hidden := d.hidden,
    link := d.link }

/-- `import_func` (lines 1488 to 1594): three-tier resolution of a function
spec.  Tier one reuses the func recorded in the installed-pkg-asset ledger
for the content hash; tier two updates (or deletes) the func already in the
`ThingMap` for this change set and unique id; tier three creates a new
func.  Funcs resolved through tiers two and three are marked builtin when
requested, recorded in the ledger, and cached in the `ThingMap`. -/
def import_func (s : Store) (thingMap : ThingMap) (changeSetPk : ChangeSetPk)
    (funcSpec : FuncSpec) (hash : Option String)
    (installedPkgId : Option EntityId) (isBuiltin : Bool) :
    Except PkgError (Store × ThingMap × Option FuncRow) :=
  match InstalledPkgAsset.list_for_kind_and_hash_pop s .func (hash.getD "") with
  | some asset =>
    match s.funcs.find? (fun f => f.id == asset.assetId) with
    | some f =>
      let f := if isBuiltin then { f with builtin := true } else f
      let s := if isBuiltin then s.updateFunc f else s
      let s :=
        match installedPkgId, hash with
        | some pkgId, some h =>
          s.addAsset
            { kind := .func, hash := h, assetId := f.id,
              installedPkgId := pkgId }
        | _, _ => s
      .ok (s, thingMap.insert changeSetPk funcSpec.uniqueId (.func f), none)
    | none => .error (.installedFuncMissing asset.assetId)
  | none =>
    let tier : Except PkgError (Store × Option FuncRow) :=
      match thingMap.get changeSetPk funcSpec.uniqueId with
      | some (.func existing) =>
        if funcSpec.deleted then .ok (s.deleteFunc existing.id, none)
        else
          match funcSpec.data with
          | some d =>
            let f := update_func existing d
            .ok (s.updateFunc f, some f)
          | none => .ok (s, some existing)
      | _ =>
        if funcSpec.deleted then .ok (s, none)
        else (create_func s funcSpec).map (fun r => (r.1, some r.2))
    match tier with
    | .error e => .error e
    | .ok (s, none) => .ok (s, thingMap, none)
    | .ok (s, some f) =>
      let f := if isBuiltin then { f with builtin := true } else f
      let s := if isBuiltin then s.updateFunc f else s
      let s :=
        match installedPkgId, hash with
        | some pkgId, some h =>
          s.addAsset
            { kind := .func, hash := h, assetId := f.id,
              installedPkgId := pkgId }
        | _, _ => s
      .ok (s, thingMap.insert changeSetPk funcSpec.uniqueId (.func f), some f)

/-- `create_func_argument`. -/
def create_func_argument (s : Store) (funcId : EntityId)
    (arg : FuncArgumentSpec) : Store × FuncArgumentRow :=
  let (id, s) := s.freshId
  let row : FuncArgumentRow :=
    { id := id, name := arg.name, kind := arg.kind,
      elementKind := arg.elementKind, funcId := funcId }
  ({ s with funcArguments := s.funcArguments ++ [row] }, row)

/-- `update_func_argument`. -/
def update_func_argument (a : FuncArgumentRow) (funcId : EntityId)
    (arg : FuncArgumentSpec) : FuncArgumentRow :=
  { a with
    name := arg.name,
    kind := arg.kind,
    elementKind := arg.elementKind,
    funcId := funcId }

/-- Replace the func-argument row with the same id. -/
def Store.updateFuncArgument (s : Store) (a : FuncArgumentRow) : Store :=
  { s with funcArguments :=
      s.funcArguments.map (fun g => if g.id == a.id then a else g) }

/-- Hard-delete the func-argument row with the given id. -/
def Store.deleteFuncArgument (s : Store) (id : EntityId) : Store :=
  { s with funcArguments := s.funcArguments.filter (fun g => !(g.id == id)) }

/-- `import_func_arguments` (lines 1627 to 1672): reconcile every argument
spec of a func against the `ThingMap`. -/
def import_func_arguments (cs : ChangeSetPk) (funcId : EntityId) :
    Store → ThingMap → List FuncArgumentSpec → Store × ThingMap
  | s, tm, [] => (s, tm)
  | s, tm, arg :: rest =>
    let (s, tm) :=
      match arg.uniqueId with
      | some uid =>
        match tm.get cs uid with
        | some (.funcArgument existing) =>
          if arg.deleted then (s.deleteFuncArgument existing.id, tm)
          else
            let updated := update_func_argument existing funcId arg
            (s.updateFuncArgument updated,
              tm.insert cs uid (.funcArgument updated))
        | _ =>
          if arg.deleted then (s, tm)
          else
            let (s, row) := create_func_argument s funcId arg
            (s, tm.insert cs uid (.funcArgument row))
      | none =>
        let (s, _) := create_func_argument s funcId arg
        (s, tm)
    import_func_arguments cs funcId s tm rest

/-- The metadata refresh applied to an intrinsic or builtin func matched by
name (the eight setter calls at lines 119 to 129 of `import.rs`). -/
def refreshedFuncRow (f : FuncRow) (d : FuncSpecData) : FuncRow :=
  { f with
    description := d.description,
    displayName := d.displayName,
    handler := some d.handler,
    link := d.link,
    hidden := d.hidden,
    backendKind := d.backendKind,
    responseType := d.responseType,
    codeBase64 := some d.codeBase64 }

/-- The two special-case functions treated like intrinsics by the funcs
loop. -/
def special_case_funcs : List String :=
  ["si:resourcePayloadToValue", "si:normalizeToArray"]

/-- One iteration of the funcs loop of `import_change_set` (lines 103 to
204).  `isIntrinsic` stands for `func::is_intrinsic` (func module, outside
the provided sources).  Intrinsic, special-case, and from-builtin specs are
matched by name against the live funcs and only have their metadata fields
refreshed; every other spec goes through `import_func` (unless listed in
`skip_import_funcs`). -/
def import_func_spec_step (isIntrinsic : String → Bool) (s : Store)
    (tm : ThingMap) (cs : ChangeSetPk) (installedPkgId : Option EntityId)
    (opts : ImportOptions) (funcSpec : FuncSpec) :
    Except PkgError (Store × ThingMap) :=
  if isIntrinsic funcSpec.name || special_case_funcs.contains funcSpec.name
      || funcSpec.isFromBuiltin then
    match Func.find_by_name s funcSpec.name, funcSpec.data with
    | some f, some d =>
      let f := refreshedFuncRow f d
      .ok (s.updateFunc f, tm.insert cs funcSpec.uniqueId (.func f))
    | _, _ =>
      match import_func s tm cs funcSpec (some funcSpec.hash) installedPkgId
          opts.isBuiltin with
      | .error e => .error e
      | .ok (s, tm, some f) =>
        if funcSpec.arguments.isEmpty then .ok (s, tm)
        else
          let (s, tm) :=
            import_func_arguments cs f.id s tm funcSpec.arguments
          .ok (s, tm)
      | .ok (s, tm, none) => .ok (s, tm)
  else
    match opts.skipImportFuncs.map (fun l =>
        (l.find? (fun e => e.1 == funcSpec.uniqueId)).map (fun e => e.2)) with
    | some (some f) =>
      let s :=
        match installedPkgId with
        | some pkgId =>
          s.addAsset
            { kind := .func, hash := funcSpec.hash, assetId := f.id,
              installedPkgId := pkgId }
        | none => s
      .ok (s, tm.insert cs funcSpec.uniqueId (.func f))
    | _ =>
      match import_func s tm cs funcSpec (some funcSpec.hash) installedPkgId
          opts.isBuiltin with
      | .error e => .error e
      | .ok (s, tm, some f) =>
        if funcSpec.arguments.isEmpty then .ok (s, tm)
        else
          let (s, tm) :=
            import_func_arguments cs f.id s tm funcSpec.arguments
          .ok (s, tm)
      | .ok (s, tm, none) => .ok (s, tm)

/-- The funcs loop of `import_change_set`: fold `import_func_spec_step`
over every function spec of the package. -/
def import_change_set_funcs (isIntrinsic : String → Bool) (cs : ChangeSetPk)
    (installedPkgId : Option EntityId) (opts : ImportOptions) :
    Store → ThingMap → List FuncSpec → Except PkgError (Store × ThingMap)
  | s, tm, [] => .ok (s, tm)
  | s, tm, funcSpec :: rest =>
    match import_func_spec_step isIntrinsic s tm cs installedPkgId opts
        funcSpec with
    | .error e => .error e
    | .ok (s, tm) =>
      import_change_set_funcs isIntrinsic cs installedPkgId opts s tm rest

/-! ## Edge import (`import_edge`, lines 501 to 624, and the edges loop of
`import_change_set`, lines 466 to 474) -/

/-- An edge spec of a package (`EdgeSpec`). -/
structure EdgeSpec where
  uniqueId : String
  deleted : Bool
  edgeKind : EdgeKind
  toComponentUniqueId : String
  toSocketName : String
  fromComponentUniqueId : String
  fromSocketName : String
  creationUserPk : Option String
  deletionUserPk : Option String
  deletedImplicitly : Bool
deriving DecidableEq

/-- `Socket::find_by_name_for_edge_kind_and_node` (socket module, queried
by name, edge kind and node). -/
def Socket.find_by_name_for_edge_kind_and_node (s : Store) (name : String)
    (edgeKind : SocketEdgeKind) (nodeId : EntityId) : Option SocketRow :=
  s.sockets.find? (fun so =>
    so.name == name && so.edgeKind == edgeKind && so.nodeId == nodeId)

/-- Modelled from the spec: `Edge::new_for_connection` (edge module, not
among the provided sources) persists a new configuration edge between the
two resolved sockets. -/
def Edge.new_for_connection (s : Store) (headNodeId headSocketId
    tailNodeId tailSocketId : EntityId) (kind : EdgeKind) :
    Store × EdgeRow :=
  let (id, s) := s.freshId
  let e : EdgeRow :=
    { id := id, kind := kind, headNodeId := headNodeId,
      headSocketId := headSocketId, tailNodeId := tailNodeId,
      tailSocketId := tailSocketId, creationUserPk := none,
      deletionUserPk := none, deletedImplicitly := false, deleted := false }
  ({ s with edges := s.edges ++ [e] }, e)

/-- Replace the edge row with the same id. -/
def Store.updateEdge (s : Store) (e : EdgeRow) : Store :=
  { s with edges := s.edges.map (fun g => if g.id == e.id then e else g) }

/-- The tail of `import_edge` (lines 587 to 621): sync the user and
deletion metadata of the resolved edge with the spec, restore or delete it
to match the spec deletion state, and cache it in the `ThingMap`. -/
def import_edge_finish (s : Store) (tm : ThingMap) (cs : ChangeSetPk)
    (edgeSpec : EdgeSpec) (edge : EdgeRow) :
    Store × ThingMap × Option ImportEdgeSkip :=
  let edge :=
    { edge with
      creationUserPk := edgeSpec.creationUserPk,
      deletionUserPk := edgeSpec.deletionUserPk,
      deletedImplicitly := edgeSpec.deletedImplicitly }
  let (s, edge) :=
    if edge.deleted && !edgeSpec.deleted then
      -- restore_by_id updates the row; the local value stays as read
      (s.updateEdge { edge with deleted := false }, edge)
    else if !edge.deleted && edgeSpec.deleted then
      let e := { edge with deleted := true }
      (s.updateEdge e, e)
    else
      (s.updateEdge edge, edge)
  (s, tm.insert cs edgeSpec.uniqueId (.edge edge), none)

/-- `import_edge` (lines 501 to 624).  An edge already in the `ThingMap` is
re-synced; otherwise (unless the spec is deleted) both endpoint components
must already be in the `ThingMap`, and the named sockets are resolved on
the endpoint nodes — a missing socket is returned as a skip, not an
error. -/
def import_edge (s : Store) (tm : ThingMap) (cs : ChangeSetPk)
    (edgeSpec : EdgeSpec) :
    Except PkgError (Store × ThingMap × Option ImportEdgeSkip) :=
  match tm.get cs edgeSpec.uniqueId with
  | some (.edge e) => .ok (import_edge_finish s tm cs edgeSpec e)
  | _ =>
    if !edgeSpec.deleted then
      match tm.get cs edgeSpec.toComponentUniqueId with
      | some (.component _ headNode) =>
        match tm.get cs edgeSpec.fromComponentUniqueId with
        | some (.component _ tailNode) =>
          match Socket.find_by_name_for_edge_kind_and_node s
              edgeSpec.toSocketName .configurationInput headNode.id with
          | none =>
            .ok (s, tm, some (.missingInputSocket edgeSpec.toSocketName))
          | some toSocket =>
            match Socket.find_by_name_for_edge_kind_and_node s
                edgeSpec.fromSocketName .configurationOutput tailNode.id with
            | none =>
              .ok (s, tm, some (.missingOutputSocket edgeSpec.fromSocketName))
            | some fromSocket =>
              let (s, edge) := Edge.new_for_connection s headNode.id
                toSocket.id tailNode.id fromSocket.id edgeSpec.edgeKind
              .ok (import_edge_finish s tm cs edgeSpec edge)
        | _ =>
          .error (.missingComponentForEdge edgeSpec.fromComponentUniqueId
            edgeSpec.fromSocketName edgeSpec.toSocketName)
      | _ =>
        .error (.missingComponentForEdge edgeSpec.toComponentUniqueId
          edgeSpec.fromSocketName edgeSpec.toSocketName)
    else
      .ok (s, tm, none)

/-- The edges loop of `import_change_set` (lines 466 to 474): import every
edge spec in order, collecting the returned skips instead of failing. -/
def import_edges (cs : ChangeSetPk) :
    Store → ThingMap → List EdgeSpec →
    Except PkgError (Store × ThingMap × List ImportEdgeSkip)
  | s, tm, [] => .ok (s, tm, [])
  | s, tm, edgeSpec :: rest =>
    match import_edge s tm cs edgeSpec with
    | .error e => .error e
    | .ok (s, tm, skip) =>
      match import_edges cs s tm rest with
      | .error e => .error e
      | .ok (s, tm, skips) => .ok (s, tm, skip.toList ++ skips)

/-! ## Component attribute import (`import_component_attribute`, lines 894
to 1240 of `import.rs`) -/

/-- The sentinel unset id (the `NONE` value of the `pk!` types). -/
def EntityId.NONE : EntityId := 0

/-- One input of an attribute function (`SiPkgAttrFuncInputView` and
`AttrFuncInputSpec`). -/
inductive AttrFuncInputSpec where
  | prop (name : String) (propPath : PropPath) (uniqueId : Option String)
      (deleted : Bool)
  | inputSocket (name : String) (socketName : String)
      (uniqueId : Option String) (deleted : Bool)
  | outputSocket (name : String) (socketName : String)
      (uniqueId : Option String) (deleted : Bool)
deriving DecidableEq

/-- The function-argument name an input binds. -/
def AttrFuncInputSpec.name : AttrFuncInputSpec → String
  | .prop name _ _ _ => name
  | .inputSocket name _ _ _ => name
  | .outputSocket name _ _ _ => name

/-- The destination of an attribute value spec (`AttributeValuePath`). -/
inductive AttributeValuePath where
  | prop (path : PropPath) (key : Option String) (index : Option Int)
  | inputSocket (name : String)
  | outputSocket (name : String)

/-- An attribute value spec of a component spec (`AttributeValueSpec`),
restricted to the fields the import path reads. -/
structure AttributeValueSpec where
  path : AttributeValuePath
  parentPath : Option AttributeValuePath
  value : Option Json
  implicitValue : Option Json
  funcUniqueId : String
  inputs : List AttrFuncInputSpec

/-- `get_prop_kind_for_value` (lines 894 to 904): the prop kind implied by
the JSON shape of a spec value. -/
def get_prop_kind_for_value : Option Json → Option PropKind
  | some (.arr _) => some .array
  | some (.bool _) => some .boolean
  | some (.num _) => some .integer
  | some (.obj _) => some .object
  | some (.str _) => some .string
  | _ => none

/-- `Prop::find_prop_by_path_opt`: the prop of a schema variant at a path,
if any. -/
def Prop.find_prop_by_path_opt (s : Store) (schemaVariantId : EntityId)
    (path : PropPath) : Option PropRow :=
  s.props.find? (fun p =>
    p.schemaVariantId == schemaVariantId && p.path == path)

/-- `InternalProvider::find_for_prop`. -/
def InternalProvider.find_for_prop (s : Store) (propId : EntityId) :
    Option InternalProviderRow :=
  s.internalProviders.find? (fun ip => ip.propId == some propId)

/-- `InternalProvider::find_explicit_for_schema_variant_and_name`. -/
def InternalProvider.find_explicit_for_schema_variant_and_name (s : Store)
    (schemaVariantId : EntityId) (name : String) :
    Option InternalProviderRow :=
  s.internalProviders.find? (fun ip =>
    ip.schemaVariantId == schemaVariantId && ip.name == name
      && ip.propId == none)

/-- `get_ip_for_input` (lines 1095 to 1137): resolve the internal provider
an attribute-function input draws from; a missing source prop or socket is
`none`, while a prop without its implicit provider is an error. -/
def get_ip_for_input (s : Store) (schemaVariantId : EntityId)
    (input : AttrFuncInputSpec) : Except PkgError (Option EntityId) :=
  match input with
  | .prop _ propPath _ _ =>
    match Prop.find_prop_by_path_opt s schemaVariantId propPath with
    | none => .ok none
    | some p =>
      match InternalProvider.find_for_prop s p.id with
      | some ip => .ok (some ip.id)
      | none => .error (.missingInternalProviderForProp p.id)
  | .inputSocket _ socketName _ _ =>
    match InternalProvider.find_explicit_for_schema_variant_and_name s
        schemaVariantId socketName with
    | some ip => .ok (some ip.id)
    | none => .ok none
  | .outputSocket _ _ _ _ => .ok none

/-- Replace the attribute-prototype row with the same id. -/
def Store.updateAttributePrototype (s : Store) (p : AttributePrototypeRow) :
    Store :=
  { s with attributePrototypes :=
      s.attributePrototypes.map (fun g => if g.id == p.id then p else g) }

/-- Replace the attribute-prototype-argument row with the same id. -/
def Store.updateApa (s : Store) (a : AttributePrototypeArgumentRow) :
    Store :=
  { s with attributePrototypeArguments :=
      s.attributePrototypeArguments.map (fun g =>
        if g.id == a.id then a else g) }

/-- Hard-delete the attribute-prototype-argument row with the given id. -/
def Store.deleteApa (s : Store) (id : EntityId) : Store :=
  { s with attributePrototypeArguments :=
      s.attributePrototypeArguments.filter (fun g => !(g.id == id)) }

/-- `AttributePrototypeArgument::new_for_intra_component`. -/
def AttributePrototypeArgument.new_for_intra_component (s : Store)
    (prototypeId funcArgumentId internalProviderId : EntityId) :
    Store × AttributePrototypeArgumentRow :=
  let (id, s) := s.freshId
  let row : AttributePrototypeArgumentRow :=
    { id := id, prototypeId := prototypeId,
      funcArgumentId := funcArgumentId,
      internalProviderId := internalProviderId }
  ({ s with attributePrototypeArguments :=
      s.attributePrototypeArguments ++ [row] }, row)

/-- First reconciliation pass of `update_prototype` (lines 1178 to 1197):
walk the existing prototype arguments, retargeting those whose function
argument matches a spec input and deleting the rest; returns the names of
the inputs already processed. -/
def update_prototype_phase1 (schemaVariantId : EntityId)
    (inputs : List AttrFuncInputSpec) :
    Store → List String → List AttributePrototypeArgumentRow →
    Except PkgError (Store × List String)
  | s, processed, [] => .ok (s, processed)
  | s, processed, apa :: rest =>
    match s.funcArguments.find? (fun g => g.id == apa.funcArgumentId) with
    | none => .error (.missingFuncArgumentById apa.funcArgumentId)
    | some funcArg =>
      match inputs.find? (fun i => i.name == funcArg.name) with
      | some input =>
        match get_ip_for_input s schemaVariantId input with
        | .error e => .error e
        | .ok ipOpt =>
          let s :=
            match ipOpt with
            | some ip =>
              if !(apa.internalProviderId == ip) then
                s.updateApa { apa with internalProviderId := ip }
              else s
            | none => s
          update_prototype_phase1 schemaVariantId inputs s
            (input.name :: processed) rest
      | none =>
        update_prototype_phase1 schemaVariantId inputs (s.deleteApa apa.id)
          processed rest

/-- Second reconciliation pass of `update_prototype` (lines 1199 to 1236):
create or retarget a prototype argument for every input not handled by the
first pass. -/
def update_prototype_phase2 (schemaVariantId attributeFuncId
    prototypeId : EntityId) (processed : List String) :
    Store → List AttrFuncInputSpec → Except PkgError Store
  | s, [] => .ok s
  | s, input :: rest =>
    if processed.contains input.name then
      update_prototype_phase2 schemaVariantId attributeFuncId prototypeId
        processed s rest
    else
      match s.funcArguments.find? (fun g =>
          g.name == input.name && g.funcId == attributeFuncId) with
      | none => .error (.missingFuncArgument input.name attributeFuncId)
      | some funcArg =>
        match get_ip_for_input s schemaVariantId input with
        | .error e => .error e
        | .ok (some ip) =>
          let s :=
            match (s.attributePrototypeArguments.filter (fun a =>
                a.prototypeId == prototypeId)).find? (fun a =>
                a.funcArgumentId == funcArg.id) with
            | some apa =>
              if !(apa.internalProviderId == ip) then
                s.updateApa { apa with internalProviderId := ip }
              else s
            | none =>
              (AttributePrototypeArgument.new_for_intra_component s
                prototypeId funcArg.id ip).1
          update_prototype_phase2 schemaVariantId attributeFuncId prototypeId
            processed s rest
        | .ok none =>
          update_prototype_phase2 schemaVariantId attributeFuncId prototypeId
            processed s rest

/-- `update_prototype` (lines 1140 to 1240): point the prototype of the
attribute value at the function named by the spec and reconcile its
arguments with the spec inputs. -/
def update_prototype (s : Store) (cs : ChangeSetPk)
    (schemaVariantId : EntityId) (attributeSpec : AttributeValueSpec)
    (attributeValue : AttributeValueRow) (tm : ThingMap) :
    Except PkgError Store :=
  match tm.get cs attributeSpec.funcUniqueId with
  | some (.func attributeFunc) =>
    match s.attributePrototypes.find? (fun p =>
        p.id == attributeValue.prototypeId) with
    | none => .error .missingAttributePrototype
    | some prototype =>
      let (s, prototype) :=
        if !(prototype.funcId == attributeFunc.id) then
          let p := { prototype with funcId := attributeFunc.id }
          (s.updateAttributePrototype p, p)
        else (s, prototype)
      let inputs := attributeSpec.inputs
      let currentApas := s.attributePrototypeArguments.filter (fun a =>
        a.prototypeId == prototype.id)
      if inputs.isEmpty && !currentApas.isEmpty then
        .ok (currentApas.foldl (fun acc a => acc.deleteApa a.id) s)
      else if !inputs.isEmpty then
        match update_prototype_phase1 schemaVariantId inputs s [] currentApas with
        | .error e => .error e
        | .ok (s, processed) =>
          update_prototype_phase2 schemaVariantId attributeFunc.id
            prototype.id processed s inputs
      else .ok s
  | _ => .error (.missingFuncUniqueId attributeSpec.funcUniqueId)

/-- Modelled from the spec: `AttributeValue::find_with_parent_and_key_for_context`
(attribute-value module, not among the provided sources).  Per spec section
4.1, the component-scoped row is tried first and the schema-level
(componentless) row is the fallback; the prop axis is always exact. -/
def AttributeValue.find_with_parent_and_key_for_context (s : Store)
    (parentId : Option EntityId) (key : Option String)
    (propId componentId : EntityId) : Option AttributeValueRow :=
  match s.attributeValues.find? (fun av =>
      av.propId == propId && av.componentId == componentId
        && av.parentId == parentId && av.key == key) with
  | some av => some av
  | none =>
    s.attributeValues.find? (fun av =>
      av.propId == propId && av.componentId == EntityId.NONE
        && av.key == key)

/-- Modelled from the spec: `AttributeValue::update_for_context` (spec
section 4.2) mutates the attribute value in place when the write context
already owns it, and otherwise creates a copy-on-write shadow under the
write context, returning the possibly new id. -/
def AttributeValue.update_for_context (s : Store) (avId : EntityId)
    (componentId : EntityId) (value : Option Json) :
    Except PkgError (Store × EntityId) :=
  match s.attributeValues.find? (fun av => av.id == avId) with
  | none => .error (.attributeValueNotFound avId)
  | some av =>
    if av.componentId == componentId then
      let updated := { av with value := value }
      .ok ({ s with attributeValues := s.attributeValues.map (fun g =>
        if g.id == av.id then updated else g) }, updated.id)
    else
      let (newId, s) := s.freshId
      let shadow :=
        { av with
          id := newId,
          componentId := componentId,
          value := value }
      .ok ({ s with attributeValues := s.attributeValues ++ [shadow] },
        newId)

/-- The prop cache threaded through one component import, keyed by the spec
path. -/
abbrev PropCache := List (PropPath × Option PropRow)

/-- The prop lookup of `import_component_attribute` through its cache
(lines 923 to 936): a cache hit is returned as is, a miss queries the
store and caches the answer (also a negative one). -/
def prop_cache_lookup (s : Store) (variantId : EntityId)
    (propCache : PropCache) (path : PropPath) :
    Option PropRow × PropCache :=
  match propCache.find? (fun e => e.1 == path) with
  | some e => (e.2, propCache)
  | none =>
    let p := Prop.find_prop_by_path_opt s variantId path
    (p, (path, p) :: propCache)

/-- The value cache threaded through one component import, keyed by
`(component id, prop id)` (`ValueCacheKey`). -/
abbrev ValueCache := List ((EntityId × EntityId) × AttributeValueRow)

/-- The prop kind against which a spec value shape is compared: map and
object props both accept object-shaped values. -/
def prop_kind_flattened : PropKind → PropKind
  | .map => .object
  | .object => .object
  | k => k

/-- The write path of `import_component_attribute` (lines 975 to 1080),
reached after the prop is resolved and the guards pass: resolve the parent
attribute value through the caches, locate the attribute value for the
context, write the whole implicit root value through `update_for_context`
when the prop is the root, and retarget the owning prototype. -/
def import_component_attribute_write (s : Store) (cs : ChangeSetPk)
    (component : Component) (variant : SchemaVariantRow)
    (attrSpec : AttributeValueSpec) (prop : PropRow) (key : Option String)
    (index : Option Int) (valueCache : ValueCache) (propCache : PropCache)
    (tm : ThingMap) :
    Except PkgError (Store × ValueCache × PropCache ×
      Option ImportAttributeSkip) :=
  if index.isSome || key.isSome then .ok (s, valueCache, propCache, none)
  else
    let parentResult : Except PkgError (Option (Option AttributeValueRow)) :=
      match attrSpec.parentPath with
      | some (.prop ppath _ _) =>
        match propCache.find? (fun e => e.1 == ppath) with
        | some (_, some parentProp) =>
          match valueCache.find? (fun e =>
              e.1 == (component.id, parentProp.id)) with
          | some e => .ok (some (some e.2))
          | none => .ok none
        | _ => .error (.attributeValueParentPropNotFound ppath)
      | _ => .ok (some none)
    match parentResult with
    | .error e => .error e
    | .ok none => .ok (s, valueCache, propCache, none)
    | .ok (some parentAv) =>
      let parentAvId := parentAv.map (fun av => av.id)
      match AttributeValue.find_with_parent_and_key_for_context s parentAvId
          key prop.id component.id with
      | none => .ok (s, valueCache, propCache, none)
      | some av =>
        let updated : Except PkgError (Store × AttributeValueRow) :=
          if prop.path == ["root"] then
            match AttributeValue.update_for_context s av.id component.id
                (if attrSpec.implicitValue.isSome then
                  attrSpec.implicitValue
                else attrSpec.value) with
            | .error e => .error e
            | .ok (s, newAvId) =>
              match s.attributeValues.find? (fun g => g.id == newAvId) with
              | some newAv => .ok (s, newAv)
              | none => .error (.attributeValueNotFound newAvId)
          else .ok (s, av)
        match updated with
        | .error e => .error e
        | .ok (s, updatedAv) =>
          match update_prototype s cs variant.id attrSpec updatedAv tm with
          | .error e => .error e
          | .ok s =>
            .ok (s, ((component.id, prop.id), updatedAv) :: valueCache,
              propCache, none)

/-- `import_component_attribute` (lines 907 to 1093) for a prop-addressed
attribute: socket-addressed specs are skipped silently; a key or index
without a parent is an error; a missing prop is a `MissingProp` skip;
attributes under `root/resource` are not written in a non-head change set;
a JSON shape that disagrees with the prop kind is a `KindMismatch` skip
except for the loosely typed `root/resource/payload` prop. -/
def import_component_attribute (s : Store) (cs : ChangeSetPk)
    (component : Component) (variant : SchemaVariantRow)
    (attrSpec : AttributeValueSpec) (valueCache : ValueCache)
    (propCache : PropCache) (tm : ThingMap) :
    Except PkgError (Store × ValueCache × PropCache ×
      Option ImportAttributeSkip) :=
  match attrSpec.path with
  | .inputSocket _ => .ok (s, valueCache, propCache, none)
  | .outputSocket _ => .ok (s, valueCache, propCache, none)
  | .prop path key index =>
    if attrSpec.parentPath.isNone && (key.isSome || index.isSome) then
      .error .attributeValueWithKeyOrIndexButNoParent
    else
      match prop_cache_lookup s variant.id propCache path with
      | (none, propCache) =>
        .ok (s, valueCache, propCache, some (.missingProp path))
      | (some prop, propCache) =>
        if cs != ChangeSetPk.NONE
            && prop.path.isDescendantOf ["root", "resource"] then
          .ok (s, valueCache, propCache, none)
        else
          match get_prop_kind_for_value attrSpec.value with
          | some expectedKind =>
            if !(expectedKind == prop_kind_flattened prop.kind) then
              if !(prop.path == ["root", "resource", "payload"]) then
                .ok (s, valueCache, propCache,
                  some (.kindMismatch path expectedKind prop.kind))
              else
                import_component_attribute_write s cs component variant
                  attrSpec prop key index valueCache propCache tm
            else
              import_component_attribute_write s cs component variant
                attrSpec prop key index valueCache propCache tm
          | none =>
            import_component_attribute_write s cs component variant
              attrSpec prop key index valueCache propCache tm

/-! ## Schema variant finalization order (`import_schema_variant`, lines
2651 to 2802, and the queues of `create_props`, lines 2384 to 2437) -/

/-- Queued attribute-function wiring info (`AttrFuncInfo`). -/
structure AttrFuncInfo where
  funcUniqueId : String
  propId : EntityId
  inputs : List AttrFuncInputSpec
deriving DecidableEq

/-- Queued default-value info (`DefaultValueInfo`). -/
inductive DefaultValueInfo where
  | boolean (propId : EntityId) (defaultValue : Bool)
  | number (propId : EntityId) (defaultValue : Int)
  | string (propId : EntityId) (defaultValue : String)
deriving DecidableEq

/-- The deferred side-effect queues collected during the prop tree walk of
one schema variant (`CreatePropsSideEffects`): `create_prop` pushes into
them while visiting the tree, and they are flushed only after the variant
is finalized. -/
structure CreatePropsSideEffects where
  attrFuncs : List AttrFuncInfo
  defaultValues : List DefaultValueInfo
  mapKeyFuncs : List (String × AttrFuncInfo)
deriving DecidableEq

/-- One step of the finalization sequence of `import_schema_variant` after
the prop trees of the variant exist. -/
inductive SideEffectEvent where
  | importActionFunc (funcUniqueId : String)
  | importAuthFunc (funcUniqueId : String)
  | importLeafFunction (funcUniqueId : String)
  | importSocket (name : String)
  | queuedDefaultValue (info : DefaultValueInfo)
  | nameDefaultValue (info : DefaultValueInfo)
  | siPropFunc (info : AttrFuncInfo)
  | rootPropFunc (info : AttrFuncInfo)
  | attachResourcePayload
  | queuedAttrFunc (info : AttrFuncInfo)
  | queuedMapKeyFunc (key : String) (info : AttrFuncInfo)
deriving DecidableEq

/-- Whether an event applies a default value from the deferred
`default_values` queue. -/
def SideEffectEvent.isQueuedDefault : SideEffectEvent → Bool
  | .queuedDefaultValue _ => true
  | _ => false

/-- Whether an event applies attribute-function (or map-key-function)
wiring from the deferred `attr_funcs` and `map_key_funcs` queues. -/
def SideEffectEvent.isQueuedWiring : SideEffectEvent → Bool
  | .queuedAttrFunc _ => true
  | .queuedMapKeyFunc _ _ => true
  | _ => false

/-- The order in which `import_schema_variant` applies its side effects
after `create_props` has filled the queues (lines 2651 to 2802): action
funcs, auth funcs, leaf functions and sockets; then every queued default
value (lines 2706 to 2710); then the name default (lines 2712 to 2724);
then si-prop and root-prop functions (lines 2726 to 2775), attaching the
resource payload when no resource-value function was given (lines 2776 to
2778); then every queued attribute function (lines 2780 to 2790); then
every queued map-key function (lines 2792 to 2802). -/
def import_schema_variant_effect_order
    (actionFuncs authFuncs leafFuncs sockets : List String)
    (sideEffects : CreatePropsSideEffects) (nameDefault : DefaultValueInfo)
    (siPropFuncs rootPropFuncs : List AttrFuncInfo)
    (hasResourceValueFunc : Bool) : List SideEffectEvent :=
  actionFuncs.map SideEffectEvent.importActionFunc
    ++ authFuncs.map SideEffectEvent.importAuthFunc
    ++ leafFuncs.map SideEffectEvent.importLeafFunction
    ++ sockets.map SideEffectEvent.importSocket
    ++ sideEffects.defaultValues.map SideEffectEvent.queuedDefaultValue
    ++ [SideEffectEvent.nameDefaultValue nameDefault]
    ++ siPropFuncs.map SideEffectEvent.siPropFunc
    ++ rootPropFuncs.map SideEffectEvent.rootPropFunc
    ++ (if hasResourceValueFunc then [] else [SideEffectEvent.attachResourcePayload])
    ++ sideEffects.attrFuncs.map SideEffectEvent.queuedAttrFunc
    ++ sideEffects.mapKeyFuncs.map (fun kv =>
        SideEffectEvent.queuedMapKeyFunc kv.1 kv.2)

/-! ## Whole-package import (`import_pkg_from_pkg`, lines 1272 to 1417,
and the phase skeleton of `import_change_set`, lines 85 to 481) -/

/-- The slice of a schema spec the phase skeleton needs. -/
structure SchemaSpec where
  name : String
  hash : String
  uniqueId : Option String
  deleted : Bool
deriving DecidableEq

/-- The slice of a component spec the phase skeleton needs. -/
structure ComponentStubSpec where
  name : String
  uniqueId : String
deriving DecidableEq

/-- Collaborating pieces of the importer whose internals live outside the
provided sources or are abstracted as phases: `isIntrinsic` stands for
`func::is_intrinsic`; `importSchemasPhase` abstracts the schema
classification, upgrade round-trip and `import_schema` calls (lines 206 to
447); `importComponentsPhase` abstracts the `import_component` loop (lines
449 to 464) whose per-attribute step is modelled above as
`import_component_attribute`; `clearOrCreateWorkspace` stands for
`Workspace::clear_or_create_workspace`. -/
structure ImportEnv where
  isIntrinsic : String → Bool
  importSchemasPhase : Store → ThingMap → ChangeSetPk → Option EntityId →
    ImportOptions → Bool → List SchemaSpec →
    Except PkgError (Store × ThingMap × List EntityId)
  importComponentsPhase : Store → ThingMap → ChangeSetPk →
    List ComponentStubSpec →
    Except PkgError (Store × ThingMap ×
      List (String × List ImportAttributeSkip))
  clearOrCreateWorkspace : Store → String → String → Store

/-- `import_change_set` (lines 85 to 481): the four phases in their
declared order — functions, then schemas, then components, then edges —
returning the installed schema variants and the collected attribute and
edge skips. -/
def import_change_set (env : ImportEnv) (s : Store) (tm : ThingMap)
    (cs : ChangeSetPk) (funcs : List FuncSpec) (schemas : List SchemaSpec)
    (components : List ComponentStubSpec) (edges : List EdgeSpec)
    (installedPkgId : Option EntityId) (opts : ImportOptions)
    (overrideBuiltinSchemaFeatureFlag : Bool) :
    Except PkgError (Store × ThingMap × List EntityId ×
      List (String × List ImportAttributeSkip) × List ImportEdgeSkip) :=
  match import_change_set_funcs env.isIntrinsic cs installedPkgId opts s tm
      funcs with
  | .error e => .error e
  | .ok (s, tm) =>
    match env.importSchemasPhase s tm cs installedPkgId opts
        overrideBuiltinSchemaFeatureFlag schemas with
    | .error e => .error e
    | .ok (s, tm, variantIds) =>
      match env.importComponentsPhase s tm cs components with
      | .error e => .error e
      | .ok (s, tm, attributeSkips) =>
        match import_edges cs s tm edges with
        | .error e => .error e
        | .ok (s, tm, edgeSkips) =>
          .ok (s, tm, variantIds, attributeSkips, edgeSkips)

/-- Package kinds (`SiPkgKind`). -/
inductive SiPkgKind where
  | module
  | workspaceBackup
deriving DecidableEq

/-- One change set of a workspace-backup package. -/
structure PkgChangeSet where
  name : String
  funcs : List FuncSpec
  schemas : List SchemaSpec
  components : List ComponentStubSpec
  edges : List EdgeSpec

/-- A package archive (`SiPkg`) with its metadata: the root `hash` is the
content hash computed over the whole archive. -/
structure SiPkg where
  hash : String
  kind : SiPkgKind
  name : String
  workspacePk : Option String
  workspaceName : Option String
  defaultChangeSet : Option String
  funcs : List FuncSpec
  schemas : List SchemaSpec
  changeSets : List PkgChangeSet

/-- The loop over the non-default change sets of a workspace backup (lines
1373 to 1404): create a change set for each and import into it, collecting
the per-change-set skips. -/
def import_backup_change_sets (env : ImportEnv) (opts : ImportOptions)
    (overrideFlag : Bool) (installedPkgId : Option EntityId)
    (defaultName : String) :
    Store → ThingMap → List PkgChangeSet →
    Except PkgError (Store × List ImportSkips)
  | s, _tm, [] => .ok (s, [])
  | s, tm, changeSet :: rest =>
    if changeSet.name == defaultName then
      import_backup_change_sets env opts overrideFlag installedPkgId
        defaultName s tm rest
    else
      let (pk, s) := s.freshId
      let s := { s with changeSets := s.changeSets ++ [(pk, changeSet.name)] }
      match import_change_set env s tm pk changeSet.funcs changeSet.schemas
          changeSet.components changeSet.edges installedPkgId opts
          overrideFlag with
      | .error e => .error e
      | .ok (s, tm, _, attributeSkips, edgeSkips) =>
        match import_backup_change_sets env opts overrideFlag installedPkgId
            defaultName s tm rest with
        | .error e => .error e
        | .ok (s, skips) =>
          let entry : ImportSkips :=
            { changeSetPk := pk,
              edgeSkips := edgeSkips,
              attributeSkips := attributeSkips }
          .ok (s, entry :: skips)

/-- `import_pkg_from_pkg` (lines 1272 to 1417).  The root hash of the
archive is checked against the installed-package table before anything
else: a package already installed under that hash is rejected with
`PackageAlreadyInstalled` carrying the hash, before any row is written.
Otherwise an `InstalledPkg` row is recorded (unless `no_record`) and the
package content is imported per change set. -/
def import_pkg_from_pkg (env : ImportEnv) (s : Store)
    (currentChangeSetPk : ChangeSetPk) (pkg : SiPkg)
    (options : Option ImportOptions) (overrideFlag : Bool) :
    Except PkgError (Store × Option EntityId × List EntityId ×
      Option (List ImportSkips)) :=
  let rootHash := pkg.hash
  let opts := options.getD {}
  if (InstalledPkg.find_by_hash s rootHash).isSome then
    .error (.packageAlreadyInstalled rootHash)
  else
    let (installedPkgId, s) :=
      if opts.noRecord then (none, s)
      else
        let (id, s) := s.freshId
        (some id, { s with installedPkgs := s.installedPkgs ++
          [{ id := id, name := pkg.name, hash := rootHash }] })
    match pkg.kind with
    | .module =>
      match import_change_set env s [] currentChangeSetPk pkg.funcs
          pkg.schemas [] [] installedPkgId opts overrideFlag with
      | .error e => .error e
      | .ok (s, _, variantIds, _, _) =>
        .ok (s, installedPkgId, variantIds, none)
    | .workspaceBackup =>
      match pkg.workspacePk with
      | none => .error .workspacePkNotInBackup
      | some wpk =>
        match pkg.workspaceName with
        | none => .error .workspaceNameNotInBackup
        | some wname =>
          let defaultChangeSetName := pkg.defaultChangeSet.getD "head"
          let s := env.clearOrCreateWorkspace s wpk wname
          match pkg.changeSets.find? (fun c =>
              c.name == defaultChangeSetName) with
          | none =>
            .error (.workspaceBackupNoDefaultChangeSet defaultChangeSetName)
          | some defaultCs =>
            match import_change_set env s [] ChangeSetPk.NONE defaultCs.funcs
                defaultCs.schemas defaultCs.components defaultCs.edges
                installedPkgId opts overrideFlag with
            | .error e => .error e
            | .ok (s, tm, _, attributeSkips, edgeSkips) =>
              let headSkips : ImportSkips :=
                { changeSetPk := ChangeSetPk.NONE, edgeSkips := edgeSkips,
                  attributeSkips := attributeSkips }
              match import_backup_change_sets env opts overrideFlag
                  installedPkgId defaultChangeSetName s tm pkg.changeSets with
              | .error e => .error e
              | .ok (s, skipsRest) =>
                let allSkips := headSkips :: skipsRest
                .ok (s, none, [],
                  if allSkips.isEmpty then none else some allSkips)

/-! ## Concrete fixtures used to evaluate the definitions -/

/-- An empty store with the id counter at 1. -/
def Store.empty : Store :=
  { nextId := 1, installedPkgs := [], installedPkgAssets := [], funcs := [],
    funcArguments := [], schemas := [], schemaVariants := [], props := [],
    internalProviders := [], externalProviders := [], sockets := [],
    components := [], nodes := [], edges := [], attributeValues := [],
    attributePrototypes := [], attributePrototypeArguments := [],
    changeSets := [] }

/-- A vacuous collaborator environment: nothing is intrinsic and the
abstracted phases succeed without touching the store. -/
def trivialImportEnv : ImportEnv :=
  { isIntrinsic := fun _ => false,
    importSchemasPhase := fun s tm _ _ _ _ _ => .ok (s, tm, []),
    importComponentsPhase := fun s tm _ _ => .ok (s, tm, []),
    clearOrCreateWorkspace := fun s _ _ => s }

/-- A concrete function spec payload. -/
def sampleFuncData : FuncSpecData :=
  { name := "si:sampleFunc", displayName := some "Sample",
    description := none, handler := "main", link := none, hidden := false,
    backendKind := "jsAttribute", responseType := "json",
    codeBase64 := "Y29kZQ" }

/-- A concrete component fixture. -/
def sampleComponent : Component :=
  { id := 10, name := "comp", schemaVariantId := 3, needsDestroy := true,
    resource := none, hidden := false, deleted := false }

/-- A concrete schema variant fixture. -/
def sampleVariant : SchemaVariantRow :=
  { id := 3, schemaId := 2, name := "v0", color := none,
    pkgCreatedAt := none }

/-- A concrete visible create-kind action prototype fixture. -/
def sampleCreatePrototype : ActionPrototype :=
  { id := 1, funcId := 5, kind := .create, schemaVariantId := 3,
    visible := true }

/-- A concrete store fixture holding one installed package with hash
`h1`. -/
def storeWithInstalledPkg : Store :=
  { Store.empty with
    installedPkgs := [{ id := 7, name := "other", hash := "h1" }] }

/-- A concrete module package fixture with root hash `h1` and no
content. -/
def samplePkg : SiPkg :=
  { hash := "h1", kind := .module, name := "pkg", workspacePk := none,
    workspaceName := none, defaultChangeSet := none, funcs := [],
    schemas := [], changeSets := [] }

/-- A deleted non-builtin function spec with no data. -/
def deletedFuncSpec : FuncSpec :=
  { name := "deletedFunc", uniqueId := "u1", data := none, deleted := true,
    isFromBuiltin := false, arguments := [], hash := "fh1" }

/-- A live non-builtin function spec carrying data. -/
def liveFuncSpec : FuncSpec :=
  { name := "liveFunc", uniqueId := "u2", data := some sampleFuncData,
    deleted := false, isFromBuiltin := false, arguments := [],
    hash := "fh2" }

/-- A live func row named like an intrinsic. -/
def sampleLiveFunc : FuncRow :=
  { id := 21, name := "si:sampleFunc", displayName := none,
    description := none, handler := some "old", link := none,
    hidden := false, builtin := true, backendKind := "old",
    responseType := "old", codeBase64 := some "old" }

/-- A store holding only `sampleLiveFunc`. -/
def storeWithSample : Store :=
  { Store.empty with funcs := [sampleLiveFunc] }

/-- An intrinsic function spec for `si:sampleFunc` carrying data. -/
def intrinsicFuncSpec : FuncSpec :=
  { name := "si:sampleFunc", uniqueId := "u3",
    data := some sampleFuncData, deleted := false, isFromBuiltin := false,
    arguments := [], hash := "fh3" }

/-- A second concrete component fixture. -/
def sampleComponent2 : Component :=
  { id := 11, name := "comp2", schemaVariantId := 3, needsDestroy := false,
    resource := none, hidden := false, deleted := false }

/-- A node fixture for the head component. -/
def headNodeFix : NodeRow :=
  { id := 30, x := 0, y := 0, width := none, height := none }

/-- A node fixture for the tail component. -/
def tailNodeFix : NodeRow :=
  { id := 31, x := 0, y := 0, width := none, height := none }

/-- A thing map holding the two endpoint components of the edge fixture. -/
def edgeThingMap : ThingMap :=
  [((0, "ch"), .component sampleComponent headNodeFix),
    ((0, "ct"), .component sampleComponent2 tailNodeFix)]

/-- A concrete edge spec between the two component fixtures. -/
def sampleEdgeSpec : EdgeSpec :=
  { uniqueId := "e1", deleted := false, edgeKind := .configuration,
    toComponentUniqueId := "ch", toSocketName := "in",
    fromComponentUniqueId := "ct", fromSocketName := "out",
    creationUserPk := none, deletionUserPk := none,
    deletedImplicitly := false }

/-- A prop row under the resource subtree of the sample variant. -/
def resourceStatusProp : PropRow :=
  { id := 40, name := "status", kind := .string,
    path := ["root", "resource", "status"], schemaVariantId := 3,
    parentId := some 39, hidden := false }

/-- A string prop row under the domain subtree of the sample variant. -/
def domainColorProp : PropRow :=
  { id := 41, name := "color", kind := .string,
    path := ["root", "domain", "color"], schemaVariantId := 3,
    parentId := some 38, hidden := false }

/-- A store holding the two sample props. -/
def storeWithProps : Store :=
  { Store.empty with props := [resourceStatusProp, domainColorProp] }

/-- An attribute value spec writing an object-shaped value to the
resource-subtree string prop. -/
def resourceAttrSpec : AttributeValueSpec :=
  { path := .prop ["root", "resource", "status"] none none,
    parentPath := none, value := some (.obj []), implicitValue := none,
    funcUniqueId := "f", inputs := [] }

/-- An attribute value spec writing an object-shaped value to the
domain string prop. -/
def domainAttrSpec : AttributeValueSpec :=
  { path := .prop ["root", "domain", "color"] none none,
    parentPath := none, value := some (.obj []), implicitValue := none,
    funcUniqueId := "f", inputs := [] }

/-- A concrete queued attribute function. -/
def sampleAttrFunc : AttrFuncInfo :=
  { funcUniqueId := "u9", propId := 5, inputs := [] }

/-- A concrete queued default value. -/
def sampleDefaultValue : DefaultValueInfo := .string 4 "red"

/-- A concrete name default value. -/
def sampleNameDefault : DefaultValueInfo := .string 6 "widget"

/-! # Theorems -/

/-- Replacing a func row by id never changes the list of func ids. -/
theorem updateFunc_map_id (s : Store) (f : FuncRow) :
    (s.updateFunc f).funcs.map (fun g => g.id) =
      s.funcs.map (fun g => g.id) := by
  simp only [Store.updateFunc, List.map_map]
  apply List.map_congr_left
  intro g _
  by_cases h : g.id = f.id
  · simp [h]
  · simp [h]

/-- A member of an id-keyed replacement that carries the id of the
replacement is the replacement itself. -/
theorem mem_updateComponent_eq {components : List Component}
    {c x : Component} (hx : x ∈ updateComponent components c)
    (hid : x.id = c.id) : x = c := by
  rcases List.mem_map.mp hx with ⟨g, _, hg⟩
  by_cases h : g.id = c.id
  · simp [h] at hg
    exact hg.symm
  · simp [h] at hg
    rw [← hg] at hid
    exact absurd hid h

/-- C1: for every package whose root content hash already has an
`InstalledPkg` row, `import_pkg_from_pkg` returns the
`PackageAlreadyInstalled` error carrying the root hash — before any entity
is created (the result is the error alone, so no store escapes), for every
collaborator environment, options value and change set. -/
theorem import_pkg_from_pkg_rejects_installed_hash
    (env : ImportEnv) (s : Store) (cs : ChangeSetPk) (pkg : SiPkg)
    (options : Option ImportOptions) (overrideFlag : Bool)
    (row : InstalledPkgRow)
    (hrow : InstalledPkg.find_by_hash s pkg.hash = some row) :
    import_pkg_from_pkg env s cs pkg options overrideFlag =
      .error (.packageAlreadyInstalled pkg.hash) := by
  unfold import_pkg_from_pkg
  simp [hrow]

/-- Witness for C1 at a concrete store and package. -/
theorem import_pkg_from_pkg_rejects_installed_hash_witness :
    import_pkg_from_pkg trivialImportEnv storeWithInstalledPkg 0 samplePkg
      none false = .error (.packageAlreadyInstalled "h1") :=
  import_pkg_from_pkg_rejects_installed_hash trivialImportEnv
    storeWithInstalledPkg 0 samplePkg none false
    { id := 7, name := "other", hash := "h1" } rfl

/-- C2: `ActionPrototype::new` fails with `MultipleOfSameKind` whenever a
visible prototype of the same non-`Other` kind already exists for the
schema variant, and with kind `Other` the uniqueness check never fails. -/
theorem action_prototype_new_kind_uniqueness
    (db : List ActionPrototype) (newId funcId svId : EntityId)
    (kind : ActionKind) (row : ActionPrototype)
    (hk : kind ≠ ActionKind.other)
    (hrow : row ∈ db) (hvis : row.visible = true)
    (hsv : row.schemaVariantId = svId) (hkind : row.kind = kind) :
    ActionPrototype.new db newId funcId kind svId =
        .error .multipleOfSameKind ∧
      ∀ db2 newId2 funcId2 svId2, ∃ result,
        ActionPrototype.new db2 newId2 funcId2 ActionKind.other svId2 =
          .ok result := by
  constructor
  · have hmem : row ∈ ActionPrototype.find_for_context db svId := by
      simp [ActionPrototype.find_for_context, List.mem_filter, hrow, hvis,
        hsv]
    have hany : (ActionPrototype.find_for_context db svId).any
        (fun p => p.kind == kind && !(kind == ActionKind.other)) = true := by
      refine List.any_eq_true.mpr ⟨row, hmem, ?_⟩
      simp [hkind, hk]
    unfold ActionPrototype.new
    simp [hany]
  · intro db2 newId2 funcId2 svId2
    have hany : (ActionPrototype.find_for_context db2 svId2).any
        (fun p => p.kind == ActionKind.other
          && !(ActionKind.other == ActionKind.other)) = false := by
      simp
    unfold ActionPrototype.new
    simp [hany]

/-- Witness for C2: one visible `create` prototype already on the variant. -/
theorem action_prototype_new_kind_uniqueness_witness :
    ActionPrototype.new [sampleCreatePrototype] 2 6 .create 3 =
      .error .multipleOfSameKind ∧
    ∀ db2 newId2 funcId2 svId2, ∃ result,
      ActionPrototype.new db2 newId2 funcId2 ActionKind.other svId2 =
        .ok result :=
  action_prototype_new_kind_uniqueness [sampleCreatePrototype] 2 6 3 .create
    sampleCreatePrototype (by decide) (by simp) rfl rfl rfl

/-- C10: when the executed binding return value carries no value,
`ActionPrototype::run` returns `Ok(None)` and performs no component
mutation at all: the component list is returned untouched and no event is
published, for every decoder, component table and log stream. -/
theorem run_none_value_no_mutation
    (decode : Json → Except String ActionRunResult)
    (components : List Component) (componentId : EntityId)
    (outputStream : List OutputStreamPart) :
    ActionPrototype.run decode components componentId none outputStream =
      .ok (none, components, []) := rfl

/-- C9: when `ActionPrototype::run` obtains a function return value and the
component had its needs-destroy flag set, the flag ends up cleared exactly
when the decoded run result carries no payload, and is left unchanged when
a payload is present. -/
theorem run_clears_needs_destroy_iff_no_payload
    (decode : Json → Except String ActionRunResult)
    (components : List Component) (componentId : EntityId)
    (value : Json) (outputStream : List OutputStreamPart)
    (component : Component) (decoded : ActionRunResult)
    (hdecode : decode value = .ok decoded)
    (hfind : components.find? (fun c => c.id == componentId) =
      some component)
    (hnd : component.needsDestroy = true) :
    ∃ result finalComponents events,
      ActionPrototype.run decode components componentId (some value)
          outputStream = .ok (some result, finalComponents, events) ∧
      result.payload = decoded.payload ∧
      ∀ c ∈ finalComponents, c.id = componentId →
        ((c.needsDestroy = false ↔ decoded.payload = none) ∧
          (decoded.payload ≠ none →
            c.needsDestroy = component.needsDestroy)) := by
  have hcid : component.id = componentId := by
    have h := List.find?_some hfind
    simpa using h
  cases hpay : decoded.payload with
  | none =>
    let rr : ActionRunResult :=
      { decoded with
        logs := (sortLogs outputStream).map (fun l => l.message) }
    let step1 : Component := { component with needsDestroy := false }
    let step2 : Component := { step1 with resource := some rr }
    let fin := updateComponent (updateComponent components step1) step2
    let evs :=
      if !(step1.resource == some rr) then
        [WsEvent.resourceRefreshed componentId]
      else []
    refine ⟨rr, fin, evs, ?_, hpay, ?_⟩
    · simp [ActionPrototype.run, hdecode, hfind, hnd, hpay, rr, step1,
        step2, fin, evs, Component.set_resource]
    · intro c hc hcid2
      have hc2 : c = step2 := by
        refine mem_updateComponent_eq hc ?_
        show c.id = component.id
        exact hcid2.trans hcid.symm
      subst hc2
      simp [step2, step1, hpay]
  | some p =>
    let rr : ActionRunResult :=
      { decoded with
        logs := (sortLogs outputStream).map (fun l => l.message) }
    let step2 : Component := { component with resource := some rr }
    let fin := updateComponent (updateComponent components component) step2
    let evs :=
      if !(component.resource == some rr) then
        [WsEvent.resourceRefreshed componentId]
      else []
    refine ⟨rr, fin, evs, ?_, hpay, ?_⟩
    · simp [ActionPrototype.run, hdecode, hfind, hnd, hpay, rr, step2,
        fin, evs, Component.set_resource]
    · intro c hc hcid2
      have hc2 : c = step2 := by
        refine mem_updateComponent_eq hc ?_
        show c.id = component.id
        exact hcid2.trans hcid.symm
      subst hc2
      simp [step2, hpay, hnd]

/-- Witness for C9 at a concrete component and decoder. -/
theorem run_clears_needs_destroy_iff_no_payload_witness :
    ∃ result finalComponents events,
      ActionPrototype.run (fun _ => .ok { payload := none, logs := [] })
          [sampleComponent] 10 (some .null) [] =
        .ok (some result, finalComponents, events) ∧
      result.payload = (none : Option Json) ∧
      ∀ c ∈ finalComponents, c.id = 10 →
        ((c.needsDestroy = false ↔ (none : Option Json) = none) ∧
          ((none : Option Json) ≠ none →
            c.needsDestroy = sampleComponent.needsDestroy)) :=
  run_clears_needs_destroy_iff_no_payload
    (fun _ => .ok { payload := none, logs := [] }) [sampleComponent] 10
    .null [] sampleComponent { payload := none, logs := [] } rfl rfl rfl

/-- C3 counterexample: a deleted function spec with no ledger entry and no
ThingMap entry falls into the third tier yet creates no Func at all —
`import_func` returns the untouched empty store and no func — so the third
tier does not always create a new Func as the claim states. -/
theorem import_func_deleted_spec_creates_nothing :
    import_func Store.empty [] 0 deletedFuncSpec (some "fh1") none false =
        .ok (Store.empty, [], none) ∧
      Store.empty.funcs = [] ∧ deletedFuncSpec.isFromBuiltin = false := by
  exact ⟨rfl, rfl, rfl⟩

/-- C3 (amended): for every non-deleted, non-builtin function spec carrying
data, `import_func` resolves in exactly three tiers — a ledger hit for the
content hash reuses the recorded Func with at most its builtin marker
changed and no new func id; otherwise a ThingMap hit has its mutable
fields updated in place (same id); otherwise a new Func is created from
the spec data. -/
theorem import_func_three_tiers
    (s : Store) (tm : ThingMap) (cs : ChangeSetPk) (funcSpec : FuncSpec)
    (h : String) (installedPkgId : Option EntityId) (isBuiltin : Bool)
    (d : FuncSpecData)
    (hdel : funcSpec.deleted = false) (hdata : funcSpec.data = some d) :
    (∀ asset f,
      InstalledPkgAsset.list_for_kind_and_hash_pop s .func h = some asset →
      s.funcs.find? (fun g => g.id == asset.assetId) = some f →
      ∃ s1 f1,
        import_func s tm cs funcSpec (some h) installedPkgId isBuiltin =
          .ok (s1, tm.insert cs funcSpec.uniqueId (.func f1), none) ∧
        (f1 = f ∨ f1 = { f with builtin := true }) ∧
        s1.funcs.map (fun g => g.id) = s.funcs.map (fun g => g.id)) ∧
    (InstalledPkgAsset.list_for_kind_and_hash_pop s .func h = none →
      ∀ existing, tm.get cs funcSpec.uniqueId = some (.func existing) →
      ∃ s1 f1,
        import_func s tm cs funcSpec (some h) installedPkgId isBuiltin =
          .ok (s1, tm.insert cs funcSpec.uniqueId (.func f1), some f1) ∧
        (f1 = update_func existing d ∨
          f1 = { update_func existing d with builtin := true }) ∧
        f1.id = existing.id ∧
        s1.funcs.map (fun g => g.id) = s.funcs.map (fun g => g.id)) ∧
    (InstalledPkgAsset.list_for_kind_and_hash_pop s .func h = none →
      tm.get cs funcSpec.uniqueId = none →
      ∃ s1 f1,
        import_func s tm cs funcSpec (some h) installedPkgId isBuiltin =
          .ok (s1, tm.insert cs funcSpec.uniqueId (.func f1), some f1) ∧
        f1.id = s.nextId ∧ f1.name = funcSpec.name ∧
        f1.handler = some d.handler ∧
        f1.codeBase64 = some d.codeBase64 ∧ f1 ∈ s1.funcs) := by
  refine ⟨?_, ?_, ?_⟩
  · intro asset f hasset hfound
    cases isBuiltin with
    | false =>
      cases installedPkgId with
      | none =>
        refine ⟨s, f, ?_, Or.inl rfl, rfl⟩
        simp [import_func, hasset, hfound, funcAssetRow]
      | some pkgId =>
        refine ⟨s.addAsset (funcAssetRow h f.id pkgId), f, ?_,
          Or.inl rfl, rfl⟩
        simp [import_func, hasset, hfound, funcAssetRow]
    | true =>
      cases installedPkgId with
      | none =>
        refine ⟨s.updateFunc { f with builtin := true },
          { f with builtin := true }, ?_, Or.inr rfl,
          updateFunc_map_id s _⟩
        simp [import_func, hasset, hfound, funcAssetRow]
      | some pkgId =>
        refine ⟨(s.updateFunc { f with builtin := true }).addAsset
          (funcAssetRow h f.id pkgId),
          { f with builtin := true }, ?_, Or.inr rfl,
          updateFunc_map_id s _⟩
        simp [import_func, hasset, hfound, funcAssetRow]
  · intro hnone existing hget
    cases isBuiltin with
    | false =>
      cases installedPkgId with
      | none =>
        refine ⟨s.updateFunc (update_func existing d),
          update_func existing d, ?_, Or.inl rfl, rfl,
          updateFunc_map_id s _⟩
        simp [import_func, hnone, hget, hdel, hdata, funcAssetRow]
      | some pkgId =>
        refine ⟨(s.updateFunc (update_func existing d)).addAsset
          (funcAssetRow h (update_func existing d).id pkgId),
          update_func existing d, ?_, Or.inl rfl, rfl,
          updateFunc_map_id s _⟩
        simp [import_func, hnone, hget, hdel, hdata, funcAssetRow]
    | true =>
      cases installedPkgId with
      | none =>
        refine ⟨(s.updateFunc (update_func existing d)).updateFunc
          { update_func existing d with builtin := true },
          { update_func existing d with builtin := true }, ?_,
          Or.inr rfl, rfl,
          (updateFunc_map_id _ _).trans (updateFunc_map_id s _)⟩
        simp [import_func, hnone, hget, hdel, hdata, funcAssetRow]
      | some pkgId =>
        refine ⟨((s.updateFunc (update_func existing d)).updateFunc
          { update_func existing d with builtin := true }).addAsset
          (funcAssetRow h (update_func existing d).id pkgId),
          { update_func existing d with builtin := true }, ?_,
          Or.inr rfl, rfl,
          (updateFunc_map_id _ _).trans (updateFunc_map_id s _)⟩
        simp [import_func, hnone, hget, hdel, hdata, funcAssetRow]
  · intro hnone hget
    have hcreate : create_func s funcSpec =
        .ok (createdFuncStore s funcSpec d, createdFuncRow s funcSpec d) := by
      simp [create_func, hdata, Store.freshId, createdFuncRow,
        createdFuncStore]
    cases isBuiltin with
    | false =>
      cases installedPkgId with
      | none =>
        refine ⟨createdFuncStore s funcSpec d, createdFuncRow s funcSpec d,
          ?_, rfl, rfl, rfl, rfl, ?_⟩
        · simp [import_func, hnone, hget, hdel, hcreate, funcAssetRow,
            Except.map]
        · simp [createdFuncStore]
      | some pkgId =>
        refine ⟨(createdFuncStore s funcSpec d).addAsset
          (funcAssetRow h (createdFuncRow s funcSpec d).id pkgId),
          createdFuncRow s funcSpec d, ?_, rfl, rfl, rfl, rfl, ?_⟩
        · simp [import_func, hnone, hget, hdel, hcreate, funcAssetRow,
            Except.map]
        · simp [Store.addAsset, createdFuncStore]
    | true =>
      cases installedPkgId with
      | none =>
        refine ⟨(createdFuncStore s funcSpec d).updateFunc
          { createdFuncRow s funcSpec d with builtin := true },
          { createdFuncRow s funcSpec d with builtin := true },
          ?_, rfl, rfl, rfl, rfl, ?_⟩
        · simp [import_func, hnone, hget, hdel, hcreate, funcAssetRow,
            Except.map]
        · refine List.mem_map.mpr ⟨createdFuncRow s funcSpec d, ?_, ?_⟩
          · simp [createdFuncStore]
          · simp
      | some pkgId =>
        refine ⟨((createdFuncStore s funcSpec d).updateFunc
          { createdFuncRow s funcSpec d with builtin := true }).addAsset
          (funcAssetRow h (createdFuncRow s funcSpec d).id pkgId),
          { createdFuncRow s funcSpec d with builtin := true },
          ?_, rfl, rfl, rfl, rfl, ?_⟩
        · simp [import_func, hnone, hget, hdel, hcreate, funcAssetRow,
            Except.map]
        · refine List.mem_map.mpr ⟨createdFuncRow s funcSpec d, ?_, ?_⟩
          · simp [Store.addAsset, createdFuncStore]
          · simp

/-- C8: for every intrinsic, special-case or from-builtin function spec
carrying data, when a live Func with the spec name exists, the funcs loop
refreshes exactly the metadata fields of that Func in place (description,
display name, handler, link, hidden, backend kind, response type, code),
records it in the ThingMap under the spec unique id, and neither replaces
its id or name nor creates any new Func. -/
theorem intrinsic_func_refreshed_in_place
    (isIntrinsic : String → Bool) (s : Store) (tm : ThingMap)
    (cs : ChangeSetPk) (installedPkgId : Option EntityId)
    (opts : ImportOptions) (funcSpec : FuncSpec) (f : FuncRow)
    (d : FuncSpecData)
    (hbranch : isIntrinsic funcSpec.name = true ∨
      funcSpec.name ∈ special_case_funcs ∨ funcSpec.isFromBuiltin = true)
    (hfind : Func.find_by_name s funcSpec.name = some f)
    (hdata : funcSpec.data = some d) :
    import_func_spec_step isIntrinsic s tm cs installedPkgId opts funcSpec =
        .ok (s.updateFunc (refreshedFuncRow f d),
          tm.insert cs funcSpec.uniqueId (.func (refreshedFuncRow f d))) ∧
      (refreshedFuncRow f d).id = f.id ∧
      (refreshedFuncRow f d).name = f.name ∧
      (refreshedFuncRow f d).description = d.description ∧
      (refreshedFuncRow f d).displayName = d.displayName ∧
      (refreshedFuncRow f d).handler = some d.handler ∧
      (refreshedFuncRow f d).link = d.link ∧
      (refreshedFuncRow f d).hidden = d.hidden ∧
      (refreshedFuncRow f d).backendKind = d.backendKind ∧
      (refreshedFuncRow f d).responseType = d.responseType ∧
      (refreshedFuncRow f d).codeBase64 = some d.codeBase64 ∧
      (s.updateFunc (refreshedFuncRow f d)).funcs.map (fun g => g.id) =
        s.funcs.map (fun g => g.id) := by
  have hcond : (isIntrinsic funcSpec.name
      || special_case_funcs.contains funcSpec.name
      || funcSpec.isFromBuiltin) = true := by
    rcases hbranch with h | h | h
    · simp [h]
    · simp [List.contains, h]
    · simp [h]
  refine ⟨?_, rfl, rfl, rfl, rfl, rfl, rfl, rfl, rfl, rfl, rfl,
    updateFunc_map_id s _⟩
  simp only [import_func_spec_step, hcond, hfind, hdata, if_true]

/-- Witness for C8: an intrinsic spec refreshing a live func named
`si:sampleFunc`. -/
theorem intrinsic_func_refreshed_in_place_witness :
    import_func_spec_step (fun n => n == "si:sampleFunc") storeWithSample
        [] 0 none {} intrinsicFuncSpec =
        .ok (storeWithSample.updateFunc
            (refreshedFuncRow sampleLiveFunc sampleFuncData),
          ThingMap.insert [] 0 intrinsicFuncSpec.uniqueId
            (.func (refreshedFuncRow sampleLiveFunc sampleFuncData))) ∧
      (refreshedFuncRow sampleLiveFunc sampleFuncData).id =
        sampleLiveFunc.id ∧
      (refreshedFuncRow sampleLiveFunc sampleFuncData).name =
        sampleLiveFunc.name ∧
      (refreshedFuncRow sampleLiveFunc sampleFuncData).description =
        sampleFuncData.description ∧
      (refreshedFuncRow sampleLiveFunc sampleFuncData).displayName =
        sampleFuncData.displayName ∧
      (refreshedFuncRow sampleLiveFunc sampleFuncData).handler =
        some sampleFuncData.handler ∧
      (refreshedFuncRow sampleLiveFunc sampleFuncData).link =
        sampleFuncData.link ∧
      (refreshedFuncRow sampleLiveFunc sampleFuncData).hidden =
        sampleFuncData.hidden ∧
      (refreshedFuncRow sampleLiveFunc sampleFuncData).backendKind =
        sampleFuncData.backendKind ∧
      (refreshedFuncRow sampleLiveFunc sampleFuncData).responseType =
        sampleFuncData.responseType ∧
      (refreshedFuncRow sampleLiveFunc sampleFuncData).codeBase64 =
        some sampleFuncData.codeBase64 ∧
      (storeWithSample.updateFunc
          (refreshedFuncRow sampleLiveFunc sampleFuncData)).funcs.map
          (fun g => g.id) =
        storeWithSample.funcs.map (fun g => g.id) :=
  intrinsic_func_refreshed_in_place (fun n => n == "si:sampleFunc")
    storeWithSample [] 0 none {} intrinsicFuncSpec sampleLiveFunc
    sampleFuncData (Or.inl rfl) rfl rfl

/-- In an appended list whose second part has no `P` elements and whose
first part has no `Q` elements, every position holding a `P` element
precedes every position holding a `Q` element. -/
theorem append_split_index_lt {α : Type} (L1 L2 : List α) (P Q : α → Bool)
    (i j : Nat) (x y : α)
    (h2 : ∀ a ∈ L2, P a = false) (h1 : ∀ a ∈ L1, Q a = false)
    (hi : (L1 ++ L2)[i]? = some x) (hx : P x = true)
    (hj : (L1 ++ L2)[j]? = some y) (hy : Q y = true) : i < j := by
  have hiL : i < L1.length := by
    by_contra hge
    push_neg at hge
    rw [List.getElem?_append_right hge] at hi
    have hmem : x ∈ L2 := List.getElem?_mem hi
    rw [h2 x hmem] at hx
    exact Bool.false_ne_true hx
  have hjL : L1.length ≤ j := by
    by_contra hlt
    push_neg at hlt
    rw [List.getElem?_append_left hlt] at hj
    have hmem : y ∈ L1 := List.getElem?_mem hj
    rw [h1 y hmem] at hy
    exact Bool.false_ne_true hy
  omega

/-- C7: within the finalization of one schema variant, every queued
default-value side effect is applied strictly before every queued
attribute-function and map-key-function wiring, whatever the contents of
the queues and of the surrounding phases. -/
theorem default_values_flushed_before_attr_funcs
    (actionFuncs authFuncs leafFuncs sockets : List String)
    (sideEffects : CreatePropsSideEffects) (nameDefault : DefaultValueInfo)
    (siPropFuncs rootPropFuncs : List AttrFuncInfo)
    (hasResourceValueFunc : Bool) (i j : Nat) (ev1 ev2 : SideEffectEvent)
    (hi : (import_schema_variant_effect_order actionFuncs authFuncs
      leafFuncs sockets sideEffects nameDefault siPropFuncs rootPropFuncs
      hasResourceValueFunc)[i]? = some ev1)
    (h1 : ev1.isQueuedDefault = true)
    (hj : (import_schema_variant_effect_order actionFuncs authFuncs
      leafFuncs sockets sideEffects nameDefault siPropFuncs rootPropFuncs
      hasResourceValueFunc)[j]? = some ev2)
    (h2 : ev2.isQueuedWiring = true) : i < j := by
  have hsplit : import_schema_variant_effect_order actionFuncs authFuncs
      leafFuncs sockets sideEffects nameDefault siPropFuncs rootPropFuncs
      hasResourceValueFunc =
    (actionFuncs.map SideEffectEvent.importActionFunc
      ++ (authFuncs.map SideEffectEvent.importAuthFunc
      ++ (leafFuncs.map SideEffectEvent.importLeafFunction
      ++ (sockets.map SideEffectEvent.importSocket
      ++ (sideEffects.defaultValues.map SideEffectEvent.queuedDefaultValue
      ++ ([SideEffectEvent.nameDefaultValue nameDefault]
      ++ (siPropFuncs.map SideEffectEvent.siPropFunc
      ++ (rootPropFuncs.map SideEffectEvent.rootPropFunc
      ++ (if hasResourceValueFunc then []
          else [SideEffectEvent.attachResourcePayload])))))))))
    ++ (sideEffects.attrFuncs.map SideEffectEvent.queuedAttrFunc
      ++ sideEffects.mapKeyFuncs.map (fun kv =>
          SideEffectEvent.queuedMapKeyFunc kv.1 kv.2)) := by
    simp [import_schema_variant_effect_order, List.append_assoc]
  rw [hsplit] at hi hj
  refine append_split_index_lt _ _ SideEffectEvent.isQueuedDefault
    SideEffectEvent.isQueuedWiring i j ev1 ev2 ?_ ?_ hi h1 hj h2
  · intro a ha
    rcases List.mem_append.mp ha with ha | ha <;>
      rcases List.mem_map.mp ha with ⟨b, _, rfl⟩ <;> rfl
  · intro a ha
    simp only [List.mem_append] at ha
    rcases ha with ha | ha | ha | ha | ha | ha | ha | ha | ha
    · rcases List.mem_map.mp ha with ⟨b, _, rfl⟩; rfl
    · rcases List.mem_map.mp ha with ⟨b, _, rfl⟩; rfl
    · rcases List.mem_map.mp ha with ⟨b, _, rfl⟩; rfl
    · rcases List.mem_map.mp ha with ⟨b, _, rfl⟩; rfl
    · rcases List.mem_map.mp ha with ⟨b, _, rfl⟩; rfl
    · rw [List.mem_singleton.mp ha]; rfl
    · rcases List.mem_map.mp ha with ⟨b, _, rfl⟩; rfl
    · rcases List.mem_map.mp ha with ⟨b, _, rfl⟩; rfl
    · cases hasResourceValueFunc with
      | false =>
        have heq : a = SideEffectEvent.attachResourcePayload := by
          simpa using ha
        rw [heq]
        rfl
      | true => simp at ha

/-- Witness for C7: a one-element default queue and a one-element
attribute-function queue give positions 0 and 2. -/
theorem default_values_flushed_before_attr_funcs_witness :
    (import_schema_variant_effect_order [] [] [] []
        { attrFuncs := [sampleAttrFunc],
          defaultValues := [sampleDefaultValue], mapKeyFuncs := [] }
        sampleNameDefault [] [] true)[0]? =
      some (.queuedDefaultValue sampleDefaultValue) ∧
    (import_schema_variant_effect_order [] [] [] []
        { attrFuncs := [sampleAttrFunc],
          defaultValues := [sampleDefaultValue], mapKeyFuncs := [] }
        sampleNameDefault [] [] true)[2]? =
      some (.queuedAttrFunc sampleAttrFunc) ∧
    (0 : Nat) < 2 :=
  ⟨rfl, rfl,
    default_values_flushed_before_attr_funcs [] [] [] []
      { attrFuncs := [sampleAttrFunc],
        defaultValues := [sampleDefaultValue], mapKeyFuncs := [] }
      sampleNameDefault [] [] true 0 2
      (.queuedDefaultValue sampleDefaultValue)
      (.queuedAttrFunc sampleAttrFunc) rfl rfl rfl rfl⟩

/-- C5: when an edge spec is new (not yet in the ThingMap) and not deleted
and both endpoint components are resolved, a missing named input socket on
the head node yields a `MissingInputSocket` skip and a missing named output
socket on the tail node yields a `MissingOutputSocket` skip — in both cases
without an error and without touching the store — and the enclosing edge
loop collects a returned skip and keeps importing the remaining edge
specs. -/
theorem import_edge_missing_socket_skip
    (s : Store) (tm : ThingMap) (cs : ChangeSetPk) (edgeSpec : EdgeSpec)
    (headComp tailComp : Component) (headNode tailNode : NodeRow)
    (hnotin : tm.get cs edgeSpec.uniqueId = none)
    (hdel : edgeSpec.deleted = false)
    (hhead : tm.get cs edgeSpec.toComponentUniqueId =
      some (.component headComp headNode))
    (htail : tm.get cs edgeSpec.fromComponentUniqueId =
      some (.component tailComp tailNode)) :
    (Socket.find_by_name_for_edge_kind_and_node s edgeSpec.toSocketName
        .configurationInput headNode.id = none →
      import_edge s tm cs edgeSpec =
        .ok (s, tm, some (.missingInputSocket edgeSpec.toSocketName))) ∧
    (∀ toSocket,
      Socket.find_by_name_for_edge_kind_and_node s edgeSpec.toSocketName
        .configurationInput headNode.id = some toSocket →
      Socket.find_by_name_for_edge_kind_and_node s edgeSpec.fromSocketName
        .configurationOutput tailNode.id = none →
      import_edge s tm cs edgeSpec =
        .ok (s, tm, some (.missingOutputSocket edgeSpec.fromSocketName))) ∧
    (∀ rest s1 tm1 skip s2 tm2 skips,
      import_edge s tm cs edgeSpec = .ok (s1, tm1, some skip) →
      import_edges cs s1 tm1 rest = .ok (s2, tm2, skips) →
      import_edges cs s tm (edgeSpec :: rest) =
        .ok (s2, tm2, skip :: skips)) := by
  refine ⟨?_, ?_, ?_⟩
  · intro hto
    simp [import_edge, hnotin, hdel, hhead, htail, hto]
  · intro toSocket hto hfrom
    simp [import_edge, hnotin, hdel, hhead, htail, hto, hfrom]
  · intro rest s1 tm1 skip s2 tm2 skips h1 h2
    simp [import_edges, h1, h2]

/-- Witness for C5: the socket names are absent from the empty store, so
the input-socket skip is returned and collected by the loop. -/
theorem import_edge_missing_socket_skip_witness :
    import_edge Store.empty edgeThingMap 0 sampleEdgeSpec =
        .ok (Store.empty, edgeThingMap,
          some (.missingInputSocket sampleEdgeSpec.toSocketName)) ∧
      import_edges 0 Store.empty edgeThingMap [sampleEdgeSpec] =
        .ok (Store.empty, edgeThingMap,
          [ImportEdgeSkip.missingInputSocket "in"]) := by
  have h := import_edge_missing_socket_skip Store.empty edgeThingMap 0
    sampleEdgeSpec sampleComponent sampleComponent2 headNodeFix tailNodeFix
    rfl rfl rfl rfl
  have h1 := h.1 rfl
  exact ⟨h1, h.2.2 [] Store.empty edgeThingMap
    (.missingInputSocket sampleEdgeSpec.toSocketName) Store.empty
    edgeThingMap [] h1 rfl⟩

/-- C4 counterexample: an object-shaped value aimed at the string prop
`root/resource/status` — a kind mismatch on a prop that is not the
resource-payload prop — produces no `KindMismatch` skip when importing
into a non-head change set, because the resource-subtree suppression
returns first. -/
theorem kind_mismatch_suppressed_under_resource_in_change_set :
    get_prop_kind_for_value resourceAttrSpec.value = some .object ∧
    resourceStatusProp.kind = .string ∧
    (resourceStatusProp.path == ["root", "resource", "payload"]) = false ∧
    import_component_attribute storeWithProps 1 sampleComponent
        sampleVariant resourceAttrSpec [] [] [] =
      .ok (storeWithProps, [],
        [(["root", "resource", "status"], some resourceStatusProp)],
        none) :=
  ⟨rfl, rfl, rfl, rfl⟩

/-- C4 (amended): for every well-formed prop-addressed attribute spec (no
key or index without a parent) whose resolved prop is not suppressed by the
resource-subtree rule for non-head change sets, a spec JSON value shape
that disagrees with the declared prop kind makes
`import_component_attribute` return a `KindMismatch` skip — not an error —
and write nothing, unless the prop is the loosely typed
`root/resource/payload` prop. -/
theorem import_component_attribute_kind_mismatch_skip
    (s : Store) (cs : ChangeSetPk) (component : Component)
    (variant : SchemaVariantRow) (attrSpec : AttributeValueSpec)
    (path : PropPath) (key : Option String) (index : Option Int)
    (prop : PropRow) (propCache propCache2 : PropCache)
    (valueCache : ValueCache) (tm : ThingMap) (expectedKind : PropKind)
    (hpath : attrSpec.path = .prop path key index)
    (hguard : (attrSpec.parentPath.isNone
      && (key.isSome || index.isSome)) = false)
    (hlookup : prop_cache_lookup s variant.id propCache path =
      (some prop, propCache2))
    (hnores : (cs != ChangeSetPk.NONE
      && prop.path.isDescendantOf ["root", "resource"]) = false)
    (hkind : get_prop_kind_for_value attrSpec.value = some expectedKind)
    (hmismatch : (expectedKind == prop_kind_flattened prop.kind) = false)
    (hnotpayload : (prop.path == ["root", "resource", "payload"]) = false) :
    import_component_attribute s cs component variant attrSpec valueCache
        propCache tm =
      .ok (s, valueCache, propCache2,
        some (.kindMismatch path expectedKind prop.kind)) := by
  simp only [import_component_attribute, hpath, hguard, hlookup, hnores,
    hkind, hmismatch, hnotpayload, Bool.false_eq_true, if_false,
    Bool.not_false, if_true]

/-- Witness for C4 (amended): the same object-shaped value aimed at the
domain string prop is skipped with a `KindMismatch`. -/
theorem import_component_attribute_kind_mismatch_skip_witness :
    import_component_attribute storeWithProps 1 sampleComponent
        sampleVariant domainAttrSpec [] [] [] =
      .ok (storeWithProps, [],
        [(["root", "domain", "color"], some domainColorProp)],
        some (.kindMismatch ["root", "domain", "color"] .object .string)) :=
  import_component_attribute_kind_mismatch_skip storeWithProps 1
    sampleComponent sampleVariant domainAttrSpec
    ["root", "domain", "color"] none none domainColorProp []
    [(["root", "domain", "color"], some domainColorProp)] [] []
    .object rfl rfl rfl rfl rfl rfl rfl

/-- C6: for every well-formed attribute value spec whose resolved prop lies
strictly under `root/resource`, importing into a non-head change set writes
nothing: `import_component_attribute` returns early with no skip, an
untouched store and an untouched value cache, so the value keeps
inheriting from head. -/
theorem resource_subtree_not_written_in_change_set
    (s : Store) (cs : ChangeSetPk) (component : Component)
    (variant : SchemaVariantRow) (attrSpec : AttributeValueSpec)
    (path : PropPath) (key : Option String) (index : Option Int)
    (prop : PropRow) (propCache propCache2 : PropCache)
    (valueCache : ValueCache) (tm : ThingMap)
    (hpath : attrSpec.path = .prop path key index)
    (hguard : (attrSpec.parentPath.isNone
      && (key.isSome || index.isSome)) = false)
    (hlookup : prop_cache_lookup s variant.id propCache path =
      (some prop, propCache2))
    (hcs : (cs != ChangeSetPk.NONE) = true)
    (hdesc : prop.path.isDescendantOf ["root", "resource"] = true) :
    import_component_attribute s cs component variant attrSpec valueCache
        propCache tm = .ok (s, valueCache, propCache2, none) := by
  simp only [import_component_attribute, hpath, hguard, hlookup, hcs,
    hdesc, Bool.and_self, Bool.false_eq_true, if_false, if_true]

/-- Witness for C6: the resource-subtree attribute of the counterexample
store is returned untouched in change set 1. -/
theorem resource_subtree_not_written_in_change_set_witness :
    import_component_attribute storeWithProps 1 sampleComponent
        sampleVariant resourceAttrSpec [] [] [] =
      .ok (storeWithProps, [],
        [(["root", "resource", "status"], some resourceStatusProp)],
        none) :=
  resource_subtree_not_written_in_change_set storeWithProps 1
    sampleComponent sampleVariant resourceAttrSpec
    ["root", "resource", "status"] none none resourceStatusProp []
    [(["root", "resource", "status"], some resourceStatusProp)] [] []
    rfl rfl rfl rfl rfl

/-- Witness for C3 (amended), exercising the creation tier on the empty
store. -/
theorem import_func_three_tiers_witness :
    ∃ s1 f1,
      import_func Store.empty [] 0 liveFuncSpec (some "fh2") none false =
        .ok (s1, ThingMap.insert [] 0 liveFuncSpec.uniqueId (.func f1),
          some f1) ∧
      f1.id = Store.empty.nextId ∧ f1.name = liveFuncSpec.name ∧
      f1.handler = some sampleFuncData.handler ∧
      f1.codeBase64 = some sampleFuncData.codeBase64 ∧ f1 ∈ s1.funcs :=
  (import_func_three_tiers Store.empty [] 0 liveFuncSpec "fh2" none false
    sampleFuncData rfl rfl).2.2 rfl rfl

end Si
